import Mathlib

/-!
# Formal model of the GreenMiles EV trip-planning core

Shallow embedding of the repository's community-energy service
(`communityEnergyService.ts`) and trip planner (`tripPlannerService.ts`).

Conventions of the embedding:
* JavaScript numbers are modelled as exact rationals (`ℚ`); the places where
  the source rounds through `Number(x.toFixed(n))` are modelled by `roundTo n`,
  which rounds to `n` decimal places with ties resolved upward (the ECMAScript
  `toFixed` tie rule: of the two nearest candidates the larger is chosen).
* JavaScript strings processed character-wise are modelled as `List Char`;
  `toLowerCase` is modelled by `Char.toLower` (ASCII case folding, which agrees
  with the source on the ASCII inputs it manipulates).
* The haversine great-circle distance is transcendental, so every function that
  calls `haversineKm` is parametrised by a distance function
  `hav : Coord → Coord → ℚ` standing for it.  Theorems that need a property of
  the real haversine (nonnegativity) take it as a hypothesis.  Exact haversine
  can vanish between distinct points (two distinct longitudes at latitude 90°
  give `dLat = 0` and `cos (π/2) = 0`, hence distance exactly 0), so distance
  functions with zero-length segments between distinct points are realisable.
* `Array.prototype.sort(cmp)` with the source's two- and three-level numeric
  comparators is modelled by `List.insertionSort` under the total preorder
  "cmp a b ≤ 0"; any comparison sort realises the same contract.
-/

set_option maxRecDepth 100000

namespace GreenMiles

/-- `Number(x.toFixed(n))` on exact rationals: round `x` to `n` decimal
places, ties resolved to the larger value. -/
def roundTo (n : ℕ) (x : ℚ) : ℚ := (⌊x * 10 ^ n + 1 / 2⌋ : ℚ) / 10 ^ n

/-- `Number(x.toFixed(1))`. -/
def round1 : ℚ → ℚ := roundTo 1

/-- `Number(x.toFixed(2))`. -/
def round2 : ℚ → ℚ := roundTo 2

/-- `Number(x.toFixed(3))`. -/
def round3 : ℚ → ℚ := roundTo 3

/-- `Number(x.toFixed(4))`. -/
def round4 : ℚ → ℚ := roundTo 4

theorem roundTo_mono (n : ℕ) {x y : ℚ} (h : x ≤ y) : roundTo n x ≤ roundTo n y := by
  unfold roundTo
  have h10 : (0 : ℚ) < 10 ^ n := by positivity
  have hfl : ⌊x * 10 ^ n + 1 / 2⌋ ≤ ⌊y * 10 ^ n + 1 / 2⌋ :=
    Int.floor_le_floor (by nlinarith)
  exact div_le_div_of_nonneg_right (by exact_mod_cast hfl) h10.le

/-- A rational that is an integer multiple of `10⁻ⁿ` is a fixed point of
`roundTo n`. -/
theorem roundTo_eq_self (n : ℕ) (k : ℤ) : roundTo n ((k : ℚ) / 10 ^ n) = (k : ℚ) / 10 ^ n := by
  unfold roundTo
  have h10 : (10 : ℚ) ^ n ≠ 0 := by positivity
  rw [div_mul_cancel₀ _ h10]
  have hfl : ⌊(k : ℚ) + 1 / 2⌋ = k := by
    rw [Int.floor_eq_iff]
    constructor
    · linarith
    · linarith
  rw [hfl]

theorem roundTo_int_mul (n : ℕ) (k : ℤ) (hk : (k : ℚ) = x * 10 ^ n) :
    roundTo n x = x := by
  have h10 : ((10 : ℚ) ^ n) ≠ 0 := by positivity
  have hx : x = (k : ℚ) / 10 ^ n := by
    field_simp [hk]
  rw [hx, roundTo_eq_self]

theorem roundTo_strict_mono (n : ℕ) {x y : ℚ} (h : x * 10 ^ n + 1 ≤ y * 10 ^ n) :
    roundTo n x < roundTo n y := by
  unfold roundTo
  have h10 : (0 : ℚ) < 10 ^ n := by positivity
  have h1 : ⌊x * 10 ^ n + 1 / 2⌋ + 1 ≤ ⌊y * 10 ^ n + 1 / 2⌋ := by
    have h2 : ⌊x * 10 ^ n + 1 / 2 + (1 : ℤ)⌋ ≤ ⌊y * 10 ^ n + 1 / 2⌋ :=
      Int.floor_le_floor (by push_cast; linarith)
    rwa [Int.floor_add_int] at h2
  have h3 : ⌊x * 10 ^ n + 1 / 2⌋ < ⌊y * 10 ^ n + 1 / 2⌋ := by omega
  exact (div_lt_div_iff_of_pos_right h10).mpr (by exact_mod_cast h3)

/-! ## Geometry: coordinates -/

/-- A latitude/longitude pair, `{ lat, lng }` in the source. -/
structure Coord where
  lat : ℚ
  lng : ℚ
deriving DecidableEq, Repr

/-! ## Character-level string model -/

/-- `String.prototype.trim` over a character list. -/
def trimChars (s : List Char) : List Char :=
  ((s.dropWhile Char.isWhitespace).reverse.dropWhile Char.isWhitespace).reverse

/-- `s.trim().toLowerCase()` as used by `routeSimilarityScore`. -/
def trimLower (s : List Char) : List Char :=
  (trimChars s).map Char.toLower

/-- Does `text` start with `pat`? -/
def startsWithChars : List Char → List Char → Bool
  | [], _ => true
  | _ :: _, [] => false
  | c :: cs, d :: ds => c = d && startsWithChars cs ds

/-- `text.includes(pat)` (substring containment; the empty pattern is
contained in everything, as in JavaScript). -/
def includesChars (text pat : List Char) : Bool :=
  match text with
  | [] => startsWithChars pat []
  | _ :: rest => startsWithChars pat text || includesChars rest pat

/-- Membership of a lower-case character in the regex class `[a-z0-9]`. -/
def isTokenChar (c : Char) : Bool :=
  ('a' ≤ c && c ≤ 'z') || ('0' ≤ c && c ≤ '9')

/-- Helper for `splitTokens`: `cur` is the (reversed) token being built. -/
def splitTokensAux : List Char → List Char → List (List Char)
  | [], cur => if cur = [] then [] else [cur.reverse]
  | c :: cs, cur =>
    if isTokenChar c then splitTokensAux cs (c :: cur)
    else if cur = [] then splitTokensAux cs []
    else cur.reverse :: splitTokensAux cs []

/-- `s.split(/[^a-z0-9]+/g).filter(Boolean)`: the maximal runs of characters
in `[a-z0-9]`, empty pieces dropped. -/
def splitTokens (s : List Char) : List (List Char) :=
  splitTokensAux s []

/-! ## communityEnergyService: route similarity -/

/-- `routeSimilarityScore` (communityEnergyService.ts lines 130-146), translated
clause by clause from the source. -/
def routeSimilarityScore (routeA routeB : List Char) : ℚ :=
  let a := trimLower routeA
  let b := trimLower routeB
  if a = [] ∨ b = [] then 0
  else if a = b then 1
  else if includesChars a b || includesChars b a then 3 / 4
  else
    let aTokens := (splitTokens a).dedup
    let bTokens := (splitTokens b).dedup
    if aTokens.length = 0 ∨ bTokens.length = 0 then 0
    else
      let overlap := (aTokens.filter (fun t => t ∈ bTokens)).length
      (overlap : ℚ) / (max aTokens.length bTokens.length : ℚ)

/-- Modelled from the words of claim C9: after trimming and lower-casing,
identical strings score 1.0; substring containment in either direction scores
0.75; otherwise both strings are tokenised on non-alphanumeric boundaries into
sets and the score is `|A ∩ B| / max (|A|, |B|)`, with score 0 if either token
set is empty.  (Note there is no initial guard for empty strings.) -/
def routeSimilarityClaimC9 (routeA routeB : List Char) : ℚ :=
  let a := trimLower routeA
  let b := trimLower routeB
  if a = b then 1
  else if includesChars a b || includesChars b a then 3 / 4
  else
    let tokA := (splitTokens a).toFinset
    let tokB := (splitTokens b).toFinset
    if tokA = ∅ ∨ tokB = ∅ then 0
    else ((tokA ∩ tokB).card : ℚ) / (max tokA.card tokB.card : ℚ)

/-- The claim C9 description amended with the source's initial guard: if either
string is empty after trimming, the score is 0; the remaining clauses are as in
the claim. -/
def routeSimilarityAmendedC9 (routeA routeB : List Char) : ℚ :=
  let a := trimLower routeA
  let b := trimLower routeB
  if a = [] ∨ b = [] then 0
  else if a = b then 1
  else if includesChars a b || includesChars b a then 3 / 4
  else
    let tokA := (splitTokens a).toFinset
    let tokB := (splitTokens b).toFinset
    if tokA = ∅ ∨ tokB = ∅ then 0
    else ((tokA ∩ tokB).card : ℚ) / (max tokA.card tokB.card : ℚ)

theorem dedup_filter_length_eq_inter_card (A B : List (List Char)) :
    (A.dedup.filter (fun t => t ∈ B.dedup)).length = (A.toFinset ∩ B.toFinset).card := by
  have hnd : (A.dedup.filter (fun t => t ∈ B.dedup)).Nodup := A.nodup_dedup.filter _
  have : (A.dedup.filter (fun t => t ∈ B.dedup)).toFinset = A.toFinset ∩ B.toFinset := by
    ext t
    simp [List.mem_filter, List.mem_dedup, Finset.mem_inter]
  rw [← this, List.toFinset_card_of_nodup hnd]

theorem dedup_length_eq_toFinset_card (A : List (List Char)) :
    A.dedup.length = A.toFinset.card := by
  rw [List.card_toFinset]

/-- C9 — counterexample: on the empty pair of direction strings the source
returns 0 while the claim's description (identical strings score 1.0)
prescribes 1. -/
theorem routeSimilarity_claimC9_counterexample :
    routeSimilarityScore [] [] = 0 ∧ routeSimilarityClaimC9 [] [] = 1 ∧
      routeSimilarityScore [] [] ≠ routeSimilarityClaimC9 [] [] := by
  refine ⟨by decide, by decide, by decide⟩

/-- C9 (amended): for every pair of direction strings, the route-similarity
score equals the claimed case analysis amended with the source's initial
empty-string guard: empty (after trimming) on either side scores 0; then
identical strings score 1.0; then substring containment either way scores
0.75; otherwise both strings are tokenised on non-alphanumeric boundaries into
sets and the score is `|A ∩ B| / max (|A|, |B|)`, 0 if either token set is
empty. -/
theorem routeSimilarityScore_eq_amendedC9 (routeA routeB : List Char) :
    routeSimilarityScore routeA routeB = routeSimilarityAmendedC9 routeA routeB := by
  unfold routeSimilarityScore routeSimilarityAmendedC9
  by_cases hempty : trimLower routeA = [] ∨ trimLower routeB = []
  · simp [hempty]
  · simp only [hempty, if_false]
    by_cases heq : trimLower routeA = trimLower routeB
    · simp [heq]
    · simp only [heq, if_false]
      by_cases hinc :
          (includesChars (trimLower routeA) (trimLower routeB)
            || includesChars (trimLower routeB) (trimLower routeA)) = true
      · simp [hinc]
      · simp only [hinc, if_false]
        rw [dedup_filter_length_eq_inter_card, dedup_length_eq_toFinset_card,
          dedup_length_eq_toFinset_card]
        simp only [Finset.card_eq_zero]

/-! ## communityEnergyService: data model -/

/-- `"solar" | "grid" | "hybrid"`. -/
inductive EnergySource
  | solar
  | grid
  | hybrid
deriving DecidableEq, Repr

/-- The text of an energy source, for the cost-breakdown note. -/
def EnergySource.text : EnergySource → String
  | .solar => "solar"
  | .grid => "grid"
  | .hybrid => "hybrid"

/-- `CommunityRescueVehicle` (communityEnergyService.ts lines 11-20). -/
structure CommunityRescueVehicle where
  vehicleId : String
  currentLocation : Coord
  routeDirection : List Char
  availableBatteryPercent : ℚ
  supportsReverseCharging : Bool
deriving DecidableEq, Repr

/-- `RescueMatchInput` (communityEnergyService.ts lines 44-53); `none` models a
field the caller left `undefined`. -/
structure RescueMatchInput where
  receiverLocation : Coord
  receiverRouteDirection : List Char
  vehicles : List CommunityRescueVehicle
  maxDistanceKm : Option ℚ := none
  minimumDonorBatteryPercent : Option ℚ := none
deriving Repr

/-! ## communityEnergyService: findNearbyRescueVehicles -/

/-- The intermediate record built inside `findNearbyRescueVehicles`. -/
structure RescueCandidate where
  vehicle : CommunityRescueVehicle
  distanceKm : ℚ
  similarity : ℚ
deriving DecidableEq, Repr

/-- The total preorder induced by the source's comparator
`(a, b) => a.distanceKm - b.distanceKm`, tie-break
`b.availableBatteryPercent - a.availableBatteryPercent`:
`a` may come before `b` iff the comparator is `≤ 0` on `(a, b)`. -/
def rescueCandidateLE (a b : RescueCandidate) : Prop :=
  a.distanceKm < b.distanceKm ∨
    (a.distanceKm = b.distanceKm ∧
      b.vehicle.availableBatteryPercent ≤ a.vehicle.availableBatteryPercent)

instance : DecidableRel rescueCandidateLE := fun a b => by
  unfold rescueCandidateLE; infer_instance

instance : IsTotal RescueCandidate rescueCandidateLE where
  total a b := by
    unfold rescueCandidateLE
    rcases lt_trichotomy a.distanceKm b.distanceKm with h | h | h
    · exact Or.inl (Or.inl h)
    · rcases le_total b.vehicle.availableBatteryPercent a.vehicle.availableBatteryPercent with
        hb | hb
      · exact Or.inl (Or.inr ⟨h, hb⟩)
      · exact Or.inr (Or.inr ⟨h.symm, hb⟩)
    · exact Or.inr (Or.inl h)

instance : IsTrans RescueCandidate rescueCandidateLE where
  trans a b c hab hbc := by
    unfold rescueCandidateLE at *
    rcases hab with h1 | ⟨h1, h1'⟩ <;> rcases hbc with h2 | ⟨h2, h2'⟩
    · exact Or.inl (h1.trans h2)
    · exact Or.inl (h2 ▸ h1)
    · exact Or.inl (h1 ▸ h2)
    · exact Or.inr ⟨h1.trans h2, h2'.trans h1'⟩

/-- `findNearbyRescueVehicles` (communityEnergyService.ts lines 241-269),
parametrised by the distance function `hav` standing for `haversineKm`. -/
def findNearbyRescueVehicles (hav : Coord → Coord → ℚ) (input : RescueMatchInput) :
    List CommunityRescueVehicle :=
  let maxDistanceKm := input.maxDistanceKm.getD 8
  let minimumDonorBatteryPercent := input.minimumDonorBatteryPercent.getD 40
  (((((((input.vehicles.filter
      (fun v => v.supportsReverseCharging)).filter
      (fun v => minimumDonorBatteryPercent ≤ v.availableBatteryPercent)).map
      (fun v => (⟨v, hav input.receiverLocation v.currentLocation,
        routeSimilarityScore input.receiverRouteDirection v.routeDirection⟩ :
        RescueCandidate))).filter
      (fun c => c.distanceKm ≤ maxDistanceKm)).filter
      (fun c => (35 : ℚ) / 100 ≤ c.similarity)).insertionSort
      rescueCandidateLE).map (fun c => c.vehicle))

/-- The returned-order relation of claim C5, phrased on the returned vehicles
themselves: non-decreasing distance to the receiver, ties broken by
descending battery percent. -/
def rescueVehicleOrder (hav : Coord → Coord → ℚ) (receiver : Coord)
    (u v : CommunityRescueVehicle) : Prop :=
  hav receiver u.currentLocation < hav receiver v.currentLocation ∨
    (hav receiver u.currentLocation = hav receiver v.currentLocation ∧
      v.availableBatteryPercent ≤ u.availableBatteryPercent)

/-- C5: every vehicle returned by `findNearbyRescueVehicles` supports reverse
charging, has battery at least the minimum donor threshold (default 40), is at
distance at most `maxDistanceKm` (default 8) from the receiver, and has
route-similarity at least 0.35; and the returned order is non-decreasing by
distance with ties broken by descending battery percent. -/
theorem findNearbyRescueVehicles_claimC5 (hav : Coord → Coord → ℚ)
    (input : RescueMatchInput) :
    (∀ v ∈ findNearbyRescueVehicles hav input,
        v.supportsReverseCharging = true ∧
        input.minimumDonorBatteryPercent.getD 40 ≤ v.availableBatteryPercent ∧
        hav input.receiverLocation v.currentLocation ≤ input.maxDistanceKm.getD 8 ∧
        (35 : ℚ) / 100 ≤
          routeSimilarityScore input.receiverRouteDirection v.routeDirection) ∧
    (findNearbyRescueVehicles hav input).Pairwise
      (rescueVehicleOrder hav input.receiverLocation) := by
  unfold findNearbyRescueVehicles
  simp only []
  set rec := input.receiverLocation with hrec
  set cands := ((((input.vehicles.filter
      (fun v => v.supportsReverseCharging)).filter
      (fun v => input.minimumDonorBatteryPercent.getD 40 ≤ v.availableBatteryPercent)).map
      (fun v => (⟨v, hav rec v.currentLocation,
        routeSimilarityScore input.receiverRouteDirection v.routeDirection⟩ :
        RescueCandidate))).filter
      (fun c => c.distanceKm ≤ input.maxDistanceKm.getD 8)).filter
      (fun c => (35 : ℚ) / 100 ≤ c.similarity) with hcands
  have hshape : ∀ c ∈ cands,
      c.distanceKm = hav rec c.vehicle.currentLocation ∧
      c.similarity =
        routeSimilarityScore input.receiverRouteDirection c.vehicle.routeDirection ∧
      c.vehicle.supportsReverseCharging = true ∧
      input.minimumDonorBatteryPercent.getD 40 ≤ c.vehicle.availableBatteryPercent ∧
      c.distanceKm ≤ input.maxDistanceKm.getD 8 ∧
      (35 : ℚ) / 100 ≤ c.similarity := by
    intro c hc
    rw [hcands] at hc
    have hc1 := (List.mem_filter.mp hc)
    have hc2 := (List.mem_filter.mp hc1.1)
    obtain ⟨v, hv, hveq⟩ := List.mem_map.mp hc2.1
    have hv1 := List.mem_filter.mp hv
    have hv2 := List.mem_filter.mp hv1.1
    subst hveq
    refine ⟨rfl, rfl, by simpa using hv2.2, by simpa using hv1.2,
      by simpa using hc2.2, by simpa using hc1.2⟩
  constructor
  · intro v hv
    obtain ⟨c, hc, hcv⟩ := List.mem_map.mp hv
    have hc' : c ∈ cands := (List.mem_insertionSort rescueCandidateLE).mp hc
    obtain ⟨hd, hs, h1, h2, h3, h4⟩ := hshape c hc'
    subst hcv
    exact ⟨h1, h2, by rw [← hd]; exact h3, by rw [← hs]; exact h4⟩
  · have hsorted : (cands.insertionSort rescueCandidateLE).Pairwise rescueCandidateLE :=
      List.sorted_insertionSort rescueCandidateLE cands
    have hconv : (cands.insertionSort rescueCandidateLE).Pairwise
        (fun c d => rescueVehicleOrder hav rec c.vehicle d.vehicle) := by
      refine hsorted.imp_of_mem ?_
      intro c d hc hd hcd
      have hcmem : c ∈ cands := (List.mem_insertionSort rescueCandidateLE).mp hc
      have hdmem : d ∈ cands := (List.mem_insertionSort rescueCandidateLE).mp hd
      have hcshape := hshape c hcmem
      have hdshape := hshape d hdmem
      unfold rescueCandidateLE at hcd
      unfold rescueVehicleOrder
      rw [← hcshape.1, ← hdshape.1]
      exact hcd
    exact List.pairwise_map.mpr hconv

/-- C5 — witness: a concrete receiver and vehicle exercising the filters,
thresholds and ordering. -/
theorem findNearbyRescueVehicles_claimC5_witness :
    ((⟨"EV-1", ⟨1, 1⟩, ['n'], 50, true⟩ : CommunityRescueVehicle).supportsReverseCharging = true ∧
      ((⟨⟨0, 0⟩, ['n'], [⟨"EV-1", ⟨1, 1⟩, ['n'], 50, true⟩], none, none⟩ :
          RescueMatchInput)).minimumDonorBatteryPercent.getD 40 ≤ (50 : ℚ) ∧
      (fun _ _ => (1 : ℚ)) (⟨0, 0⟩ : Coord) (⟨1, 1⟩ : Coord) ≤
        ((⟨⟨0, 0⟩, ['n'], [⟨"EV-1", ⟨1, 1⟩, ['n'], 50, true⟩], none, none⟩ :
          RescueMatchInput)).maxDistanceKm.getD 8 ∧
      (35 : ℚ) / 100 ≤ routeSimilarityScore ['n'] ['n']) ∧
    (findNearbyRescueVehicles (fun _ _ => (1 : ℚ))
        ⟨⟨0, 0⟩, ['n'], [⟨"EV-1", ⟨1, 1⟩, ['n'], 50, true⟩], none, none⟩).Pairwise
      (rescueVehicleOrder (fun _ _ => (1 : ℚ)) ⟨0, 0⟩) := by
  have h := findNearbyRescueVehicles_claimC5 (fun _ _ => (1 : ℚ))
    ⟨⟨0, 0⟩, ['n'], [⟨"EV-1", ⟨1, 1⟩, ['n'], 50, true⟩], none, none⟩
  refine ⟨h.1 ⟨"EV-1", ⟨1, 1⟩, ['n'], 50, true⟩ (by with_unfolding_all decide), h.2⟩

/-! ## communityEnergyService: stations and charging cost -/

/-- `SolarAwareStation` (communityEnergyService.ts lines 5-9): a normalized
station together with its (optional) energy-source annotation. -/
structure SolarAwareStation where
  id : String
  name : String
  address : String
  latitude : ℚ
  longitude : ℚ
  maxPowerKw : ℚ
  isSolarPowered : Bool
  energySource : Option EnergySource := none
  operatorName : Option String := none
deriving DecidableEq, Repr

/-- `ChargingCostBreakdown` (communityEnergyService.ts lines 36-42). -/
structure ChargingCostBreakdown where
  basePricePerKwh : ℚ
  effectivePricePerKwh : ℚ
  discountAppliedPercent : ℚ
  totalCost : ℚ
  note : String
deriving DecidableEq, Repr

/-- The options bag of `calculateSolarDiscountedCost`. -/
structure CostOptions where
  basePricePerKwh : Option ℚ := none
  solarDiscountPercent : Option ℚ := none
  hybridDiscountPercent : Option ℚ := none
deriving DecidableEq, Repr

/-- `calculateSolarDiscountedCost` (communityEnergyService.ts lines 168-200).
`Number.isFinite` always holds in the exact-rational model, so
`Math.max(0, Number.isFinite(e) ? e : 0)` is `max 0 e`. -/
def calculateSolarDiscountedCost (energyRequiredKwh : ℚ) (station : SolarAwareStation)
    (options : Option CostOptions := none) : ChargingCostBreakdown :=
  let units := max 0 energyRequiredKwh
  let basePricePerKwh := (options.bind (fun o => o.basePricePerKwh)).getD 12
  let solarDiscount := (options.bind (fun o => o.solarDiscountPercent)).getD 35
  let hybridDiscount := (options.bind (fun o => o.hybridDiscountPercent)).getD 20
  let source := station.energySource.getD .grid
  let discountAppliedPercent :=
    match source with
    | .solar => solarDiscount
    | .hybrid => hybridDiscount
    | .grid => 0
  let effectivePricePerKwh := round2 (basePricePerKwh * (1 - discountAppliedPercent / 100))
  let totalCost := round2 (units * effectivePricePerKwh)
  { basePricePerKwh := basePricePerKwh
    effectivePricePerKwh := effectivePricePerKwh
    discountAppliedPercent := discountAppliedPercent
    totalCost := totalCost
    note := if 0 < discountAppliedPercent then source.text ++ " station discount applied"
            else "Standard grid tariff" }

/-- `calculateChargingCost` (communityEnergyService.ts lines 202-207): the
no-options entry point. -/
def calculateChargingCost (energyRequiredKwh : ℚ) (station : SolarAwareStation) :
    ChargingCostBreakdown :=
  calculateSolarDiscountedCost energyRequiredKwh station none

/-! ## communityEnergyService: out-of-charge detection -/

/-- `OutOfChargeDetectionInput` (communityEnergyService.ts lines 22-27). -/
structure OutOfChargeDetectionInput where
  batteryPercent : ℚ
  criticalThresholdPercent : Option ℚ := none
  nearbyStationsCount : ℤ
  stationRadiusKm : ℚ
deriving Repr

/-- `OutOfChargeDetectionResult` (communityEnergyService.ts lines 29-34). -/
structure OutOfChargeDetectionResult where
  isCriticalBattery : Bool
  hasNoNearbyStations : Bool
  shouldTriggerRescue : Bool
  reason : String
deriving DecidableEq, Repr

/-- `detectOutOfChargeScenario` (communityEnergyService.ts lines 209-232). -/
def detectOutOfChargeScenario (input : OutOfChargeDetectionInput) :
    OutOfChargeDetectionResult :=
  let criticalThresholdPercent := input.criticalThresholdPercent.getD 5
  let isCriticalBattery : Bool := input.batteryPercent ≤ criticalThresholdPercent
  let hasNoNearbyStations : Bool := input.nearbyStationsCount ≤ 0
  let shouldTriggerRescue := isCriticalBattery && hasNoNearbyStations
  let reason :=
    if shouldTriggerRescue then
      "Battery is critical (<=" ++ toString criticalThresholdPercent ++
        "%) and no stations found within " ++ toString input.stationRadiusKm ++ " km"
    else if !isCriticalBattery then
      "Battery above critical threshold (" ++ toString criticalThresholdPercent ++ "%)"
    else "Stations available nearby"
  { isCriticalBattery := isCriticalBattery
    hasNoNearbyStations := hasNoNearbyStations
    shouldTriggerRescue := shouldTriggerRescue
    reason := reason }

/-! ## communityEnergyService: simulateReverseCharging -/

/-- The caller-configurable transfer window `{ min, max }`. -/
structure TransferRange where
  min : ℚ
  max : ℚ
deriving DecidableEq, Repr

/-- The station projection `Pick<OcmStation, "id" | "name" | "latitude" |
"longitude">` consumed by `simulateReverseCharging`. -/
structure StationRef where
  id : String
  name : String
  latitude : ℚ
  longitude : ℚ
deriving DecidableEq, Repr

/-- `RescueSimulationInput` (communityEnergyService.ts lines 55-73). -/
structure RescueSimulationInput where
  receiverCurrentBatteryPercent : ℚ
  receiverBatteryCapacityKwh : ℚ
  receiverLocation : Coord
  rescueCandidates : List CommunityRescueVehicle
  chargingStations : List StationRef
  donorBatteryCapacityKwh : Option ℚ := none
  transferKwhRange : Option TransferRange := none
  donorSafeBatteryFloorPercent : Option ℚ := none
  receiverKmPerKwh : Option ℚ := none
  oneRescuePerTrip : Option Bool := none
  alreadyRescuedOnTrip : Option Bool := none
deriving Repr

/-- `RescueSimulationResult` (communityEnergyService.ts lines 75-86). -/
structure RescueSimulationResult where
  rescueFound : Bool
  donorVehicleId : Option String := none
  transferredEnergyKwh : ℚ
  emergencyRangeGainedKm : ℚ
  receiverBatteryAfterPercent : Option ℚ := none
  donorBatteryAfterPercent : Option ℚ := none
  nearestChargerReachable : Bool
  nearestReachableChargerId : Option String := none
  nearestReachableChargerName : Option String := none
  reason : String
deriving DecidableEq, Repr

/-- The `donorCurrentEnergyKwh` binding of `simulateReverseCharging`. -/
def donorCurrentEnergyKwh (input : RescueSimulationInput)
    (donor : CommunityRescueVehicle) : ℚ :=
  donor.availableBatteryPercent / 100 * input.donorBatteryCapacityKwh.getD 70

/-- The `donorMinimumEnergyKwh` binding of `simulateReverseCharging`. -/
def donorMinimumEnergyKwh (input : RescueSimulationInput) : ℚ :=
  input.donorSafeBatteryFloorPercent.getD 25 / 100 * input.donorBatteryCapacityKwh.getD 70

/-- The `donorTransferableKwh` binding of `simulateReverseCharging`. -/
def donorTransferableKwh (input : RescueSimulationInput)
    (donor : CommunityRescueVehicle) : ℚ :=
  max 0 (donorCurrentEnergyKwh input donor - donorMinimumEnergyKwh input)

/-- The `transferCandidateKwh` binding of `simulateReverseCharging`. -/
def transferCandidateKwh (input : RescueSimulationInput)
    (donor : CommunityRescueVehicle) : ℚ :=
  min (input.transferKwhRange.getD ⟨5, 10⟩).max (donorTransferableKwh input donor)

/-- The `transferredEnergyKwh` binding of `simulateReverseCharging` (before
the 2-decimal display rounding applied to the returned field). -/
def acceptedTransferKwh (input : RescueSimulationInput)
    (donor : CommunityRescueVehicle) : ℚ :=
  if (input.transferKwhRange.getD ⟨5, 10⟩).min ≤ transferCandidateKwh input donor then
    transferCandidateKwh input donor
  else 0

/-- The intermediate `{ station, distanceKm }` record of the nearest-charger
scan in `simulateReverseCharging`. -/
structure StationDistance where
  station : StationRef
  distanceKm : ℚ
deriving DecidableEq, Repr

/-- The total preorder induced by the comparator
`(a, b) => a.distanceKm - b.distanceKm`. -/
def stationDistanceLE (a b : StationDistance) : Prop :=
  a.distanceKm ≤ b.distanceKm

instance : DecidableRel stationDistanceLE := fun a b => by
  unfold stationDistanceLE; infer_instance

instance : IsTotal StationDistance stationDistanceLE :=
  ⟨fun a b => le_total a.distanceKm b.distanceKm⟩

instance : IsTrans StationDistance stationDistanceLE :=
  ⟨fun _ _ _ h1 h2 => le_trans h1 h2⟩

/-- The `emergencyRangeGainedKm` binding of `simulateReverseCharging`. -/
def emergencyRangeKm (input : RescueSimulationInput)
    (donor : CommunityRescueVehicle) : ℚ :=
  round1 (acceptedTransferKwh input donor * input.receiverKmPerKwh.getD (9 / 2))

/-- The `receiverBatteryAfterPercent` binding of `simulateReverseCharging`
(note the `Math.max(1, ...)` clamp on the receiver capacity in the
`receiverAddedPercent` binding). -/
def receiverAfterPercent (input : RescueSimulationInput)
    (donor : CommunityRescueVehicle) : ℚ :=
  round1 (min 100 (input.receiverCurrentBatteryPercent +
    acceptedTransferKwh input donor / max 1 input.receiverBatteryCapacityKwh * 100))

/-- The `donorBatteryAfterPercent` binding of `simulateReverseCharging`. -/
def donorAfterPercent (input : RescueSimulationInput)
    (donor : CommunityRescueVehicle) : ℚ :=
  round1 ((donorCurrentEnergyKwh input donor - acceptedTransferKwh input donor) /
    input.donorBatteryCapacityKwh.getD 70 * 100)

/-- The `nearest` binding of `simulateReverseCharging`: stations sorted by
distance to the receiver, first element if any. -/
def nearestStationScan (hav : Coord → Coord → ℚ) (input : RescueSimulationInput) :
    Option StationDistance :=
  ((input.chargingStations.map
    (fun s => (⟨s, hav input.receiverLocation ⟨s.latitude, s.longitude⟩⟩ :
      StationDistance))).insertionSort stationDistanceLE).head?

/-- The `nearestChargerReachable` binding of `simulateReverseCharging`:
`Boolean(nearest && nearest.distanceKm <= emergencyRangeGainedKm)`. -/
def nearestReachable (hav : Coord → Coord → ℚ) (input : RescueSimulationInput)
    (donor : CommunityRescueVehicle) : Bool :=
  match nearestStationScan hav input with
  | some nd => decide (nd.distanceKm ≤ emergencyRangeKm input donor)
  | none => false

/-- `simulateReverseCharging` (communityEnergyService.ts lines 278-364),
parametrised by the distance function `hav` standing for `haversineKm`; the
`const` bindings of the source are the named definitions above. -/
def simulateReverseCharging (hav : Coord → Coord → ℚ)
    (input : RescueSimulationInput) : RescueSimulationResult :=
  if input.oneRescuePerTrip.getD false && input.alreadyRescuedOnTrip.getD false then
    { rescueFound := false, transferredEnergyKwh := 0, emergencyRangeGainedKm := 0,
      nearestChargerReachable := false,
      reason := "One rescue per trip limit reached" }
  else
    match input.rescueCandidates with
    | [] =>
      { rescueFound := false, transferredEnergyKwh := 0, emergencyRangeGainedKm := 0,
        nearestChargerReachable := false,
        reason := "No rescue vehicle available" }
    | donor :: _ =>
      if acceptedTransferKwh input donor ≤ 0 then
        { rescueFound := false, transferredEnergyKwh := 0, emergencyRangeGainedKm := 0,
          nearestChargerReachable := false,
          reason := "Donor battery is below safe transfer reserve" }
      else
        { rescueFound := true
          donorVehicleId := some donor.vehicleId
          transferredEnergyKwh := round2 (acceptedTransferKwh input donor)
          emergencyRangeGainedKm := emergencyRangeKm input donor
          receiverBatteryAfterPercent := some (receiverAfterPercent input donor)
          donorBatteryAfterPercent := some (donorAfterPercent input donor)
          nearestChargerReachable := nearestReachable hav input donor
          nearestReachableChargerId :=
            if nearestReachable hav input donor then
              (nearestStationScan hav input).map (fun nd => nd.station.id)
            else none
          nearestReachableChargerName :=
            if nearestReachable hav input donor then
              (nearestStationScan hav input).map (fun nd => nd.station.name)
            else none
          reason :=
            if nearestReachable hav input donor then
              "Rescue successful and a charger is reachable"
            else
              "Rescue provided emergency range, but nearest charger is still out of range" }

/-- If a simulated rescue reports `rescueFound`, then the one-rescue-per-trip
guard did not fire, there is a first candidate (the donor), and its accepted
transfer amount is positive. -/
theorem simulateReverseCharging_found_inv (hav : Coord → Coord → ℚ)
    (input : RescueSimulationInput)
    (h : (simulateReverseCharging hav input).rescueFound = true) :
    (input.oneRescuePerTrip.getD false && input.alreadyRescuedOnTrip.getD false) = false ∧
    ∃ donor rest, input.rescueCandidates = donor :: rest ∧
      ¬ acceptedTransferKwh input donor ≤ 0 := by
  unfold simulateReverseCharging at h
  split at h
  · simp at h
  · rename_i hlimit
    refine ⟨by simpa using hlimit, ?_⟩
    split at h
    · simp at h
    · rename_i donor rest heq
      split at h
      · simp at h
      · rename_i hpos
        exact ⟨donor, rest, heq, hpos⟩

/-- The result record of a successful simulated rescue, in terms of the named
bindings. -/
theorem simulateReverseCharging_found_eq (hav : Coord → Coord → ℚ)
    (input : RescueSimulationInput) (donor : CommunityRescueVehicle)
    (rest : List CommunityRescueVehicle)
    (hlimit : (input.oneRescuePerTrip.getD false &&
      input.alreadyRescuedOnTrip.getD false) = false)
    (hcand : input.rescueCandidates = donor :: rest)
    (hpos : ¬ acceptedTransferKwh input donor ≤ 0) :
    simulateReverseCharging hav input =
      { rescueFound := true
        donorVehicleId := some donor.vehicleId
        transferredEnergyKwh := round2 (acceptedTransferKwh input donor)
        emergencyRangeGainedKm := emergencyRangeKm input donor
        receiverBatteryAfterPercent := some (receiverAfterPercent input donor)
        donorBatteryAfterPercent := some (donorAfterPercent input donor)
        nearestChargerReachable := nearestReachable hav input donor
        nearestReachableChargerId :=
          if nearestReachable hav input donor then
            (nearestStationScan hav input).map (fun nd => nd.station.id)
          else none
        nearestReachableChargerName :=
          if nearestReachable hav input donor then
            (nearestStationScan hav input).map (fun nd => nd.station.name)
          else none
        reason :=
          if nearestReachable hav input donor then
            "Rescue successful and a charger is reachable"
          else
            "Rescue provided emergency range, but nearest charger is still out of range" } := by
  unfold simulateReverseCharging
  rw [hcand]
  simp only [hlimit, Bool.false_eq_true, if_false]
  rw [if_neg hpos]

/-- The result record when the one-rescue-per-trip guard fires. -/
theorem simulateReverseCharging_eq_limit (hav : Coord → Coord → ℚ)
    (input : RescueSimulationInput)
    (h : (input.oneRescuePerTrip.getD false &&
      input.alreadyRescuedOnTrip.getD false) = true) :
    simulateReverseCharging hav input =
      { rescueFound := false, transferredEnergyKwh := 0, emergencyRangeGainedKm := 0,
        nearestChargerReachable := false,
        reason := "One rescue per trip limit reached" } := by
  unfold simulateReverseCharging
  rw [if_pos h]

/-- The result record when no rescue candidate is available. -/
theorem simulateReverseCharging_eq_nodonor (hav : Coord → Coord → ℚ)
    (input : RescueSimulationInput)
    (hlimit : (input.oneRescuePerTrip.getD false &&
      input.alreadyRescuedOnTrip.getD false) = false)
    (hcand : input.rescueCandidates = []) :
    simulateReverseCharging hav input =
      { rescueFound := false, transferredEnergyKwh := 0, emergencyRangeGainedKm := 0,
        nearestChargerReachable := false,
        reason := "No rescue vehicle available" } := by
  unfold simulateReverseCharging
  rw [hcand]
  simp only [hlimit, Bool.false_eq_true, if_false]

/-- The result record when the donor cannot spare the minimum transfer. -/
theorem simulateReverseCharging_eq_reserve (hav : Coord → Coord → ℚ)
    (input : RescueSimulationInput) (donor : CommunityRescueVehicle)
    (rest : List CommunityRescueVehicle)
    (hlimit : (input.oneRescuePerTrip.getD false &&
      input.alreadyRescuedOnTrip.getD false) = false)
    (hcand : input.rescueCandidates = donor :: rest)
    (hle : acceptedTransferKwh input donor ≤ 0) :
    simulateReverseCharging hav input =
      { rescueFound := false, transferredEnergyKwh := 0, emergencyRangeGainedKm := 0,
        nearestChargerReachable := false,
        reason := "Donor battery is below safe transfer reserve" } := by
  unfold simulateReverseCharging
  rw [hcand]
  simp only [hlimit, Bool.false_eq_true, if_false]
  rw [if_pos hle]

/-- A positive accepted transfer lies inside the configured window. -/
theorem acceptedTransferKwh_bounds (input : RescueSimulationInput)
    (donor : CommunityRescueVehicle)
    (hpos : ¬ acceptedTransferKwh input donor ≤ 0) :
    (input.transferKwhRange.getD ⟨5, 10⟩).min ≤ acceptedTransferKwh input donor ∧
      acceptedTransferKwh input donor ≤ (input.transferKwhRange.getD ⟨5, 10⟩).max := by
  unfold acceptedTransferKwh at hpos ⊢
  by_cases hc : (input.transferKwhRange.getD ⟨5, 10⟩).min ≤ transferCandidateKwh input donor
  · rw [if_pos hc]
    exact ⟨hc, min_le_left _ _⟩
  · rw [if_neg hc] at hpos
    exact absurd le_rfl hpos

theorem roundTo_ge_fixed (n : ℕ) (k : ℤ) {x : ℚ} (h : (k : ℚ) / 10 ^ n ≤ x) :
    (k : ℚ) / 10 ^ n ≤ roundTo n x := by
  have hm := roundTo_mono n h
  rwa [roundTo_eq_self] at hm

theorem roundTo_le_fixed (n : ℕ) (k : ℤ) {x : ℚ} (h : x ≤ (k : ℚ) / 10 ^ n) :
    roundTo n x ≤ (k : ℚ) / 10 ^ n := by
  have hm := roundTo_mono n h
  rwa [roundTo_eq_self] at hm

/-- C1 (amended): when the configured window bounds are integer multiples of
0.01 — as the defaults 5 and 10 are — a result with `rescueFound = true` has
`transferredEnergyKwh` (the 2-decimal-rounded returned field) at least the
window minimum and at most the window maximum; and whenever
`rescueFound = false` the returned `transferredEnergyKwh` is exactly 0. -/
theorem simulateReverseCharging_claimC1 (hav : Coord → Coord → ℚ)
    (input : RescueSimulationInput)
    (hmin : ∃ k : ℤ, (input.transferKwhRange.getD ⟨5, 10⟩).min = k / 100)
    (hmax : ∃ k : ℤ, (input.transferKwhRange.getD ⟨5, 10⟩).max = k / 100) :
    ((simulateReverseCharging hav input).rescueFound = true →
      (input.transferKwhRange.getD ⟨5, 10⟩).min ≤
          (simulateReverseCharging hav input).transferredEnergyKwh ∧
        (simulateReverseCharging hav input).transferredEnergyKwh ≤
          (input.transferKwhRange.getD ⟨5, 10⟩).max) ∧
    ((simulateReverseCharging hav input).rescueFound = false →
      (simulateReverseCharging hav input).transferredEnergyKwh = 0) := by
  constructor
  · intro hfound
    obtain ⟨hlimit, donor, rest, hcand, hpos⟩ :=
      simulateReverseCharging_found_inv hav input hfound
    rw [simulateReverseCharging_found_eq hav input donor rest hlimit hcand hpos]
    obtain ⟨hlo, hhi⟩ := acceptedTransferKwh_bounds input donor hpos
    obtain ⟨k1, hk1⟩ := hmin
    obtain ⟨k2, hk2⟩ := hmax
    have h100 : ((100 : ℚ)) = 10 ^ 2 := by norm_num
    constructor
    · rw [hk1] at hlo ⊢
      rw [h100] at hlo ⊢
      exact roundTo_ge_fixed 2 k1 hlo
    · rw [hk2] at hhi ⊢
      rw [h100] at hhi ⊢
      exact roundTo_le_fixed 2 k2 hhi
  · intro hfalse
    by_cases hlimit : (input.oneRescuePerTrip.getD false &&
        input.alreadyRescuedOnTrip.getD false) = true
    · rw [simulateReverseCharging_eq_limit hav input hlimit]
    · have hlimit' : (input.oneRescuePerTrip.getD false &&
          input.alreadyRescuedOnTrip.getD false) = false := by
        simpa using hlimit
      cases hcand : input.rescueCandidates with
      | nil => rw [simulateReverseCharging_eq_nodonor hav input hlimit' hcand]
      | cons donor rest =>
        by_cases hle : acceptedTransferKwh input donor ≤ 0
        · rw [simulateReverseCharging_eq_reserve hav input donor rest hlimit' hcand hle]
        · rw [simulateReverseCharging_found_eq hav input donor rest hlimit' hcand hle] at hfalse
          simp at hfalse

/-- The concrete input refuting claim C1 as stated: the caller configures the
window `[5.004, 10]`, the donor floor 0% of a 100 kWh pack, and a donor at
5.004%, so the accepted transfer is exactly 5.004 kWh, which the returned
field rounds down to 5.00 < 5.004. -/
def rescueInputC1 : RescueSimulationInput :=
  { receiverCurrentBatteryPercent := 10
    receiverBatteryCapacityKwh := 60
    receiverLocation := ⟨0, 0⟩
    rescueCandidates := [⟨"D1", ⟨0, 0⟩, ['x'], 1251 / 250, true⟩]
    chargingStations := []
    donorBatteryCapacityKwh := some 100
    transferKwhRange := some ⟨1251 / 250, 10⟩
    donorSafeBatteryFloorPercent := some 0 }

/-- C1 — counterexample to the claim as stated: with a caller-configured
window minimum of 5.004 kWh, a rescue is found whose returned
`transferredEnergyKwh` (5.00) is strictly below the configured window
minimum. -/
theorem simulateReverseCharging_claimC1_counterexample :
    (simulateReverseCharging (fun _ _ => 0) rescueInputC1).rescueFound = true ∧
    (simulateReverseCharging (fun _ _ => 0) rescueInputC1).transferredEnergyKwh = 5 ∧
    (rescueInputC1.transferKwhRange.getD ⟨5, 10⟩).min = 1251 / 250 ∧
    ¬ ((1251 / 250 : ℚ) ≤ 5) := by
  refine ⟨by with_unfolding_all decide, by with_unfolding_all decide,
    by with_unfolding_all decide, by with_unfolding_all decide⟩

/-- A default-window rescue input on which the simulation succeeds. -/
def rescueInputC1w : RescueSimulationInput :=
  { receiverCurrentBatteryPercent := 10
    receiverBatteryCapacityKwh := 60
    receiverLocation := ⟨0, 0⟩
    rescueCandidates := [⟨"D1", ⟨0, 0⟩, ['x'], 90, true⟩]
    chargingStations := [] }

/-- C1 — witness: on a default-window input with a 90% donor the rescue is
found and the returned transfer (10 kWh) lies inside the window `[5, 10]`. -/
theorem simulateReverseCharging_claimC1_witness :
    (5 : ℚ) ≤ (simulateReverseCharging (fun _ _ => 0) rescueInputC1w).transferredEnergyKwh ∧
    (simulateReverseCharging (fun _ _ => 0) rescueInputC1w).transferredEnergyKwh ≤ 10 := by
  have h := simulateReverseCharging_claimC1 (fun _ _ => 0) rescueInputC1w
    ⟨500, by norm_num [rescueInputC1w]⟩ ⟨1000, by norm_num [rescueInputC1w]⟩
  exact h.1 (by with_unfolding_all decide)

/-- C8 (amended): for every accepted transfer (`rescueFound = true`), the
receiver's reported new battery percent equals
`min(100, old + t / max(1, capacity) × 100)` rounded to 1 decimal, where `t`
is the accepted transfer amount — the source divides by `max(1, capacity)`,
not by the raw capacity; whenever the caller-supplied capacity is at least
1 kWh this coincides with the claim's formula dividing by the capacity
itself. -/
theorem simulateReverseCharging_claimC8 (hav : Coord → Coord → ℚ)
    (input : RescueSimulationInput) (donor : CommunityRescueVehicle)
    (rest : List CommunityRescueVehicle)
    (hcand : input.rescueCandidates = donor :: rest)
    (hfound : (simulateReverseCharging hav input).rescueFound = true) :
    (simulateReverseCharging hav input).receiverBatteryAfterPercent =
      some (round1 (min 100 (input.receiverCurrentBatteryPercent +
        acceptedTransferKwh input donor /
          max 1 input.receiverBatteryCapacityKwh * 100))) ∧
    (1 ≤ input.receiverBatteryCapacityKwh →
      (simulateReverseCharging hav input).receiverBatteryAfterPercent =
        some (round1 (min 100 (input.receiverCurrentBatteryPercent +
          acceptedTransferKwh input donor /
            input.receiverBatteryCapacityKwh * 100)))) := by
  obtain ⟨hlimit, donor', rest', hcand', hpos⟩ :=
    simulateReverseCharging_found_inv hav input hfound
  rw [hcand] at hcand'
  obtain ⟨hd, hr⟩ : donor = donor' ∧ rest = rest' := by simpa using hcand'
  subst hd
  subst hr
  rw [simulateReverseCharging_found_eq hav input donor rest hlimit hcand hpos]
  constructor
  · rfl
  · intro hcap
    have hmax : max 1 input.receiverBatteryCapacityKwh =
        input.receiverBatteryCapacityKwh := max_eq_right hcap
    simp only [receiverAfterPercent, hmax]

/-- The concrete input refuting claim C8 as stated: a positive receiver
capacity of 0.5 kWh and a configured window `[0.1, 0.3]`; the source divides
the 0.3 kWh transfer by `max(1, 0.5) = 1`, adding 30 points instead of the
claimed 60. -/
def rescueInputC8 : RescueSimulationInput :=
  { receiverCurrentBatteryPercent := 10
    receiverBatteryCapacityKwh := 1 / 2
    receiverLocation := ⟨0, 0⟩
    rescueCandidates := [⟨"D1", ⟨0, 0⟩, ['x'], 40, true⟩]
    chargingStations := []
    transferKwhRange := some ⟨1 / 10, 3 / 10⟩ }

/-- C8 — counterexample to the claim as stated: with a positive receiver
capacity of 0.5 kWh, the rescue is found with a transfer of 0.3 kWh, but the
reported receiver battery percent is 40.0 while the claim's formula
`min(100, 10 + 0.3 / 0.5 × 100)` rounded to 1 decimal yields 70.0. -/
theorem simulateReverseCharging_claimC8_counterexample :
    (simulateReverseCharging (fun _ _ => 0) rescueInputC8).rescueFound = true ∧
    0 < rescueInputC8.receiverBatteryCapacityKwh ∧
    (simulateReverseCharging (fun _ _ => 0) rescueInputC8).transferredEnergyKwh = 3 / 10 ∧
    (simulateReverseCharging (fun _ _ => 0) rescueInputC8).receiverBatteryAfterPercent =
      some 40 ∧
    round1 (min 100 (rescueInputC8.receiverCurrentBatteryPercent +
      (3 / 10) / rescueInputC8.receiverBatteryCapacityKwh * 100)) = 70 ∧
    (40 : ℚ) ≠ 70 := by
  refine ⟨by with_unfolding_all decide, by with_unfolding_all decide,
    by with_unfolding_all decide, by with_unfolding_all decide,
    by with_unfolding_all decide, by with_unfolding_all decide⟩

/-- A default rescue input with a 60 kWh receiver on which the simulation
succeeds. -/
def rescueInputC8w : RescueSimulationInput :=
  { receiverCurrentBatteryPercent := 10
    receiverBatteryCapacityKwh := 60
    receiverLocation := ⟨0, 0⟩
    rescueCandidates := [⟨"D1", ⟨0, 0⟩, ['x'], 90, true⟩]
    chargingStations := [] }

/-- C8 — witness: on a 60 kWh receiver at 10% receiving 10 kWh, the reported
battery percent equals the amended formula (26.7). -/
theorem simulateReverseCharging_claimC8_witness :
    (simulateReverseCharging (fun _ _ => 0) rescueInputC8w).receiverBatteryAfterPercent =
      some (round1 (min 100 (rescueInputC8w.receiverCurrentBatteryPercent +
        acceptedTransferKwh rescueInputC8w ⟨"D1", ⟨0, 0⟩, ['x'], 90, true⟩ /
          rescueInputC8w.receiverBatteryCapacityKwh * 100))) := by
  have h := simulateReverseCharging_claimC8 (fun _ _ => 0) rescueInputC8w
    ⟨"D1", ⟨0, 0⟩, ['x'], 90, true⟩ [] (by with_unfolding_all decide)
    (by with_unfolding_all decide)
  exact h.2 (by norm_num [rescueInputC8w])

/-- C10 (amended): for every accepted transfer with a positive donor pack
capacity, the transferred energy never exceeds the donor's current energy
minus the safe-floor energy (first conjunct, for every such transfer); and —
whenever the configured floor percent is additionally an integer multiple of
0.1, as the default 25 is — the reported `donorBatteryAfterPercent` is at
least the floor percent (second conjunct, gated only on that multiple
condition). -/
theorem simulateReverseCharging_claimC10 (hav : Coord → Coord → ℚ)
    (input : RescueSimulationInput) (donor : CommunityRescueVehicle)
    (rest : List CommunityRescueVehicle)
    (hcand : input.rescueCandidates = donor :: rest)
    (hcap : 0 < input.donorBatteryCapacityKwh.getD 70)
    (hfound : (simulateReverseCharging hav input).rescueFound = true) :
    acceptedTransferKwh input donor ≤
      donorCurrentEnergyKwh input donor - donorMinimumEnergyKwh input ∧
    ((∃ k : ℤ, input.donorSafeBatteryFloorPercent.getD 25 = k / 10) →
      ∀ d, (simulateReverseCharging hav input).donorBatteryAfterPercent = some d →
        input.donorSafeBatteryFloorPercent.getD 25 ≤ d) := by
  obtain ⟨hlimit, donor', rest', hcand', hpos⟩ :=
    simulateReverseCharging_found_inv hav input hfound
  rw [hcand] at hcand'
  obtain ⟨hd, hr⟩ : donor = donor' ∧ rest = rest' := by simpa using hcand'
  subst hd
  subst hr
  have htpos : 0 < acceptedTransferKwh input donor := not_le.mp hpos
  have htr : acceptedTransferKwh input donor ≤ donorTransferableKwh input donor := by
    unfold acceptedTransferKwh
    split
    · exact min_le_right _ _
    · unfold donorTransferableKwh
      exact le_max_left _ _
  have htransf : donorTransferableKwh input donor =
      donorCurrentEnergyKwh input donor - donorMinimumEnergyKwh input := by
    have hpos2 : 0 < donorTransferableKwh input donor := lt_of_lt_of_le htpos htr
    unfold donorTransferableKwh at hpos2 ⊢
    rcases le_or_lt (donorCurrentEnergyKwh input donor - donorMinimumEnergyKwh input) 0 with
      hx | hx
    · rw [max_eq_left hx] at hpos2
      exact absurd hpos2 (by norm_num)
    · exact max_eq_right hx.le
  have hmain : acceptedTransferKwh input donor ≤
      donorCurrentEnergyKwh input donor - donorMinimumEnergyKwh input := by
    rw [← htransf]
    exact htr
  refine ⟨hmain, ?_⟩
  intro hfloor d hd
  rw [simulateReverseCharging_found_eq hav input donor rest hlimit hcand hpos] at hd
  have hd' : d = donorAfterPercent input donor := by
    simpa using hd.symm
  subst hd'
  unfold donorAfterPercent
  obtain ⟨k, hk⟩ := hfloor
  have h10 : ((10 : ℚ)) = 10 ^ 1 := by norm_num
  rw [hk, h10]
  apply roundTo_ge_fixed 1 k
  rw [← h10, ← hk]
  have h2 : input.donorSafeBatteryFloorPercent.getD 25 =
      donorMinimumEnergyKwh input / input.donorBatteryCapacityKwh.getD 70 * 100 := by
    unfold donorMinimumEnergyKwh
    field_simp
    ring
  rw [h2]
  have h3 : donorMinimumEnergyKwh input ≤
      donorCurrentEnergyKwh input donor - acceptedTransferKwh input donor := by
    linarith
  have h4 : donorMinimumEnergyKwh input / input.donorBatteryCapacityKwh.getD 70 ≤
      (donorCurrentEnergyKwh input donor - acceptedTransferKwh input donor) /
        input.donorBatteryCapacityKwh.getD 70 :=
    div_le_div_of_nonneg_right h3 hcap.le
  nlinarith [h4]

/-- The concrete input refuting claim C10 as stated: a caller-configured floor
of 25.04% of a 100 kWh pack and a donor at 30.04%; the donor is drained to
exactly the floor energy, and the reported percent rounds 25.04 down to
25.0 < 25.04. -/
def rescueInputC10 : RescueSimulationInput :=
  { receiverCurrentBatteryPercent := 10
    receiverBatteryCapacityKwh := 60
    receiverLocation := ⟨0, 0⟩
    rescueCandidates := [⟨"D1", ⟨0, 0⟩, ['x'], 751 / 25, true⟩]
    chargingStations := []
    donorBatteryCapacityKwh := some 100
    donorSafeBatteryFloorPercent := some (626 / 25) }

/-- C10 — counterexample to the claim as stated: with a configured donor floor
of 25.04%, a rescue is found whose reported `donorBatteryAfterPercent` (25.0)
is strictly below the floor percent. -/
theorem simulateReverseCharging_claimC10_counterexample :
    (simulateReverseCharging (fun _ _ => 0) rescueInputC10).rescueFound = true ∧
    (simulateReverseCharging (fun _ _ => 0) rescueInputC10).donorBatteryAfterPercent =
      some 25 ∧
    rescueInputC10.donorSafeBatteryFloorPercent.getD 25 = 626 / 25 ∧
    ¬ ((626 / 25 : ℚ) ≤ 25) := by
  refine ⟨by with_unfolding_all decide, by with_unfolding_all decide,
    by with_unfolding_all decide, by with_unfolding_all decide⟩

/-- A default rescue input (floor 25%, pack 70 kWh) on which the simulation
succeeds. -/
def rescueInputC10w : RescueSimulationInput :=
  { receiverCurrentBatteryPercent := 10
    receiverBatteryCapacityKwh := 60
    receiverLocation := ⟨0, 0⟩
    rescueCandidates := [⟨"D1", ⟨0, 0⟩, ['x'], 90, true⟩]
    chargingStations := [] }

/-- C10 — witness: with the default floor (25%) and a 90% donor of a 70 kWh
pack, the donor ends at 75.7% ≥ 25%. -/
theorem simulateReverseCharging_claimC10_witness :
    acceptedTransferKwh rescueInputC10w ⟨"D1", ⟨0, 0⟩, ['x'], 90, true⟩ ≤
      donorCurrentEnergyKwh rescueInputC10w ⟨"D1", ⟨0, 0⟩, ['x'], 90, true⟩ -
        donorMinimumEnergyKwh rescueInputC10w ∧
    rescueInputC10w.donorSafeBatteryFloorPercent.getD 25 ≤ (757 / 10 : ℚ) := by
  have h := simulateReverseCharging_claimC10 (fun _ _ => 0) rescueInputC10w
    ⟨"D1", ⟨0, 0⟩, ['x'], 90, true⟩ [] (by with_unfolding_all decide)
    (by norm_num [rescueInputC10w]) (by with_unfolding_all decide)
  exact ⟨h.1, h.2 ⟨250, by norm_num [rescueInputC10w]⟩ (757 / 10)
    (by with_unfolding_all decide)⟩

/-! ## Claim C6: cost monotonicity and solar discount -/

/-- The default discount percent applied by `calculateChargingCost` for a
station's energy source (35 for solar, 20 for hybrid, 0 for grid). -/
def discountFor (station : SolarAwareStation) : ℚ :=
  match station.energySource.getD .grid with
  | .solar => 35
  | .hybrid => 20
  | .grid => 0

theorem calculateChargingCost_totalCost (e : ℚ) (station : SolarAwareStation) :
    (calculateChargingCost e station).totalCost =
      round2 (max 0 e * round2 (12 * (1 - discountFor station / 100))) := by
  unfold calculateChargingCost calculateSolarDiscountedCost discountFor
  rfl

theorem calculateSolarDiscountedCost_effective_base (e b : ℚ)
    (station : SolarAwareStation) :
    (calculateSolarDiscountedCost e station (some ⟨some b, none, none⟩)).effectivePricePerKwh =
      round2 (b * (1 - discountFor station / 100)) := by
  unfold calculateSolarDiscountedCost discountFor
  rfl

theorem discountFor_nonneg (station : SolarAwareStation) :
    0 ≤ discountFor station ∧ discountFor station ≤ 100 := by
  unfold discountFor
  rcases station.energySource.getD .grid with _ | _ | _ <;> norm_num

/-- C6 (amended): `calculateChargingCost` is monotonically non-decreasing in
the energy required (negative energy clamped to 0), and the effective price
per kWh for a solar station is strictly below that of an otherwise-identical
grid station at the same base tariff for every base tariff of at least 0.03
(in particular the default 12); for smaller positive tariffs the two-decimal
rounding can make the two effective prices coincide. -/
theorem calculateChargingCost_claimC6 :
    (∀ (station : SolarAwareStation) (e1 e2 : ℚ), e1 ≤ e2 →
      (calculateChargingCost e1 station).totalCost ≤
        (calculateChargingCost e2 station).totalCost) ∧
    (∀ b : ℚ, 3 / 100 ≤ b → ∀ (eS eG : ℚ) (s g : SolarAwareStation),
      s.energySource = some .solar → g.energySource = some .grid →
      (calculateSolarDiscountedCost eS s (some ⟨some b, none, none⟩)).effectivePricePerKwh <
        (calculateSolarDiscountedCost eG g
          (some ⟨some b, none, none⟩)).effectivePricePerKwh) := by
  constructor
  · intro station e1 e2 h12
    rw [calculateChargingCost_totalCost, calculateChargingCost_totalCost]
    apply roundTo_mono
    have hp : 0 ≤ round2 (12 * (1 - discountFor station / 100)) := by
      have hd := discountFor_nonneg station
      have harg : 0 ≤ 12 * (1 - discountFor station / 100) := by
        nlinarith [hd.1, hd.2]
      calc (0 : ℚ) = round2 0 := by
            unfold round2 roundTo
            norm_num
        _ ≤ round2 (12 * (1 - discountFor station / 100)) := roundTo_mono 2 harg
    exact mul_le_mul_of_nonneg_right (max_le_max le_rfl h12) hp
  · intro b hb eS eG s g hs hg
    rw [calculateSolarDiscountedCost_effective_base,
      calculateSolarDiscountedCost_effective_base]
    have hds : discountFor s = 35 := by unfold discountFor; rw [hs]; rfl
    have hdg : discountFor g = 0 := by unfold discountFor; rw [hg]; rfl
    rw [hds, hdg]
    apply roundTo_strict_mono
    nlinarith [hb]

/-- Concrete otherwise-identical stations (solar vs grid) for claim C6. -/
def solarStationC6 : SolarAwareStation :=
  ⟨"st-1", "Station One", "Main Road", 0, 0, 50, true, some .solar, none⟩

/-- The grid twin of `solarStationC6`. -/
def gridStationC6 : SolarAwareStation :=
  ⟨"st-1", "Station One", "Main Road", 0, 0, 50, false, some .grid, none⟩

/-- C6 — counterexample to the claim as stated: at the base tariff 0.01 the
solar and grid effective prices both round to 0.01, so the strict inequality
claimed "for every base tariff" fails. -/
theorem calculateChargingCost_claimC6_counterexample :
    (calculateSolarDiscountedCost 1 solarStationC6
        (some ⟨some (1 / 100), none, none⟩)).effectivePricePerKwh =
      (calculateSolarDiscountedCost 1 gridStationC6
        (some ⟨some (1 / 100), none, none⟩)).effectivePricePerKwh ∧
    ¬ ((calculateSolarDiscountedCost 1 solarStationC6
        (some ⟨some (1 / 100), none, none⟩)).effectivePricePerKwh <
      (calculateSolarDiscountedCost 1 gridStationC6
        (some ⟨some (1 / 100), none, none⟩)).effectivePricePerKwh) := by
  refine ⟨by with_unfolding_all decide, by with_unfolding_all decide⟩

/-- C6 — witness: monotonicity at energies 1 ≤ 2 on the grid station, and the
strict solar discount at the default base tariff 12 (7.8 < 12). -/
theorem calculateChargingCost_claimC6_witness :
    (calculateChargingCost 1 gridStationC6).totalCost ≤
      (calculateChargingCost 2 gridStationC6).totalCost ∧
    (calculateSolarDiscountedCost 1 solarStationC6
        (some ⟨some 12, none, none⟩)).effectivePricePerKwh <
      (calculateSolarDiscountedCost 1 gridStationC6
        (some ⟨some 12, none, none⟩)).effectivePricePerKwh := by
  refine ⟨calculateChargingCost_claimC6.1 gridStationC6 1 2 (by norm_num),
    calculateChargingCost_claimC6.2 12 (by norm_num) 1 1 solarStationC6 gridStationC6
      (by with_unfolding_all decide) (by with_unfolding_all decide)⟩

/-! ## tripPlannerService: pointAtDistanceAlongRoute -/

/-- Linear interpolation between two coordinates:
`segStart + (segEnd - segStart) * ratio`, componentwise as in the source. -/
def lerp (a b : Coord) (r : ℚ) : Coord :=
  ⟨a.lat + (b.lat - a.lat) * r, a.lng + (b.lng - a.lng) * r⟩

/-- The loop of `pointAtDistanceAlongRoute` (tripPlannerService.ts lines
311-327), recursing on the remaining route with `remaining = target - covered`
(the source keeps `covered` instead; the loop guard
`covered + segDistance >= targetKm` is `remaining ≤ segDistance`).  When the
loop runs out of segments it returns the last visited point, i.e.
`route[route.length - 1]`. -/
def routeWalk (hav : Coord → Coord → ℚ) (segStart : Coord) :
    List Coord → ℚ → Coord
  | [], _ => segStart
  | segEnd :: rest, remaining =>
    if remaining ≤ hav segStart segEnd then
      lerp segStart segEnd
        (if hav segStart segEnd = 0 then 0 else remaining / hav segStart segEnd)
    else routeWalk hav segEnd rest (remaining - hav segStart segEnd)

/-- `pointAtDistanceAlongRoute` (tripPlannerService.ts lines 306-328),
parametrised by the segment distance function `hav` standing for
`haversineKm`. -/
def pointAtDistanceAlongRoute (hav : Coord → Coord → ℚ) (route : List Coord)
    (targetDistanceKm : ℚ) : Coord :=
  match route with
  | [] => ⟨0, 0⟩
  | p :: rest =>
    if targetDistanceKm ≤ 0 then p
    else routeWalk hav p rest targetDistanceKm

/-- Total polyline length: the sum of consecutive segment distances. -/
def routeTotalLen (hav : Coord → Coord → ℚ) : List Coord → ℚ
  | [] => 0
  | [_] => 0
  | a :: b :: rest => hav a b + routeTotalLen hav (b :: rest)

/-- Cumulative length of the first `k` segments of the route (index-based, as
in the claim's "first segment at which cumulative distance reaches t"). -/
def partialLen (hav : Coord → Coord → ℚ) (route : List Coord) : ℕ → ℚ
  | 0 => 0
  | k + 1 =>
    partialLen hav route k + hav (route.getD k ⟨0, 0⟩) (route.getD (k + 1) ⟨0, 0⟩)

/-- All consecutive segments of the route have positive length. -/
def segsPos (hav : Coord → Coord → ℚ) : List Coord → Prop
  | [] => True
  | [_] => True
  | a :: b :: rest => 0 < hav a b ∧ segsPos hav (b :: rest)

def segsPosDec (hav : Coord → Coord → ℚ) : ∀ route, Decidable (segsPos hav route)
  | [] => isTrue trivial
  | [_] => isTrue trivial
  | a :: b :: rest =>
    have : Decidable (segsPos hav (b :: rest)) := segsPosDec hav (b :: rest)
    inferInstanceAs (Decidable (0 < hav a b ∧ segsPos hav (b :: rest)))

instance (hav : Coord → Coord → ℚ) (route : List Coord) :
    Decidable (segsPos hav route) := segsPosDec hav route

theorem routeTotalLen_nonneg (hav : Coord → Coord → ℚ)
    (hnn : ∀ a b, 0 ≤ hav a b) :
    ∀ route, 0 ≤ routeTotalLen hav route := by
  intro route
  match route with
  | [] => exact le_refl 0
  | [_] => exact le_refl 0
  | a :: b :: rest =>
    have ih := routeTotalLen_nonneg hav hnn (b :: rest)
    unfold routeTotalLen
    have := hnn a b
    linarith

theorem routeWalk_beyond (hav : Coord → Coord → ℚ) (hnn : ∀ a b, 0 ≤ hav a b) :
    ∀ (rest : List Coord) (p : Coord) (remaining : ℚ),
      routeTotalLen hav (p :: rest) < remaining →
      routeWalk hav p rest remaining = (p :: rest).getLastD ⟨0, 0⟩ := by
  intro rest
  induction rest with
  | nil => intro p remaining _; rfl
  | cons q rest' ih =>
    intro p remaining h
    unfold routeTotalLen at h
    have htot := routeTotalLen_nonneg hav hnn (q :: rest')
    unfold routeWalk
    rw [if_neg (by linarith)]
    rw [ih q (remaining - hav p q) (by linarith)]
    rfl

theorem partialLen_succ_head (hav : Coord → Coord → ℚ) (p q : Coord)
    (rest : List Coord) :
    ∀ k, partialLen hav (p :: q :: rest) (k + 1) =
      hav p q + partialLen hav (q :: rest) k := by
  intro k
  induction k with
  | zero => simp [partialLen]
  | succ k ih =>
    unfold partialLen
    rw [ih]
    have h1 : (p :: q :: rest).getD (k + 1) ⟨0, 0⟩ = (q :: rest).getD k ⟨0, 0⟩ := rfl
    have h2 : (p :: q :: rest).getD (k + 2) ⟨0, 0⟩ = (q :: rest).getD (k + 1) ⟨0, 0⟩ := rfl
    rw [h1, h2]
    ring

theorem partialLen_succ (hav : Coord → Coord → ℚ) (route : List Coord) (k : ℕ) :
    partialLen hav route (k + 1) =
      partialLen hav route k +
        hav (route.getD k ⟨0, 0⟩) (route.getD (k + 1) ⟨0, 0⟩) := rfl

theorem partialLen_mono (hav : Coord → Coord → ℚ) (route : List Coord)
    (hnn : ∀ a b, 0 ≤ hav a b) {k m : ℕ} (h : k ≤ m) :
    partialLen hav route k ≤ partialLen hav route m := by
  induction m with
  | zero => interval_cases k; exact le_refl _
  | succ m ih =>
    rcases Nat.lt_or_ge k (m + 1) with hk | hk
    · have h1 := ih (Nat.lt_succ_iff.mp hk)
      rw [partialLen_succ]
      have := hnn (route.getD m ⟨0, 0⟩) (route.getD (m + 1) ⟨0, 0⟩)
      linarith
    · have : k = m + 1 := le_antisymm h hk
      subst this
      exact le_refl _

theorem pointAtDistanceAlongRoute_cons (hav : Coord → Coord → ℚ) (p : Coord)
    (rest : List Coord) (t : ℚ) :
    pointAtDistanceAlongRoute hav (p :: rest) t =
      if t ≤ 0 then p else routeWalk hav p rest t := rfl

theorem routeWalk_cons (hav : Coord → Coord → ℚ) (p segEnd : Coord)
    (rest : List Coord) (remaining : ℚ) :
    routeWalk hav p (segEnd :: rest) remaining =
      if remaining ≤ hav p segEnd then
        lerp p segEnd
          (if hav p segEnd = 0 then 0 else remaining / hav p segEnd)
      else routeWalk hav segEnd rest (remaining - hav p segEnd) := rfl

/-- The interpolation clause: if segment `i` is the first whose cumulative
length reaches `t > 0`, the walk returns the linear interpolation inside
segment `i`. -/
theorem pointAtDistanceAlongRoute_reach (hav : Coord → Coord → ℚ)
    (hnn : ∀ a b, 0 ≤ hav a b) :
    ∀ (i : ℕ) (route : List Coord) (t : ℚ),
      0 < t → partialLen hav route i < t → t ≤ partialLen hav route (i + 1) →
      i + 1 < route.length →
      pointAtDistanceAlongRoute hav route t =
        lerp (route.getD i ⟨0, 0⟩) (route.getD (i + 1) ⟨0, 0⟩)
          (if hav (route.getD i ⟨0, 0⟩) (route.getD (i + 1) ⟨0, 0⟩) = 0 then 0
           else (t - partialLen hav route i) /
             hav (route.getD i ⟨0, 0⟩) (route.getD (i + 1) ⟨0, 0⟩)) := by
  intro i
  induction i with
  | zero =>
    intro route t ht h0 h1 hlen
    match route with
    | p :: q :: rest =>
      have hp1 : partialLen hav (p :: q :: rest) 1 = hav p q := by
        rw [partialLen_succ]
        show 0 + hav p q = hav p q
        ring
      rw [hp1] at h1
      rw [pointAtDistanceAlongRoute_cons, if_neg (by linarith), routeWalk_cons,
        if_pos h1]
      have hg0 : (p :: q :: rest).getD 0 ⟨0, 0⟩ = p := rfl
      have hg1 : (p :: q :: rest).getD 1 ⟨0, 0⟩ = q := rfl
      have hp0 : partialLen hav (p :: q :: rest) 0 = 0 := rfl
      rw [hg0, hg1, hp0, sub_zero]
  | succ i ih =>
    intro route t ht h0 h1 hlen
    match route with
    | p :: q :: rest =>
      have hseg : partialLen hav (p :: q :: rest) 1 = hav p q := by
        rw [partialLen_succ]
        show 0 + hav p q = hav p q
        ring
      have hmono : partialLen hav (p :: q :: rest) 1 ≤
          partialLen hav (p :: q :: rest) (i + 1) :=
        partialLen_mono hav _ hnn (by omega)
      have hlt : hav p q < t := by
        rw [hseg] at hmono; linarith
      rw [pointAtDistanceAlongRoute_cons, if_neg (by linarith), routeWalk_cons,
        if_neg (by linarith)]
      have hrec : routeWalk hav q rest (t - hav p q) =
          pointAtDistanceAlongRoute hav (q :: rest) (t - hav p q) := by
        rw [pointAtDistanceAlongRoute_cons, if_neg (by linarith)]
      rw [hrec]
      have hPL0 : partialLen hav (p :: q :: rest) (i + 1) =
          hav p q + partialLen hav (q :: rest) i := partialLen_succ_head hav p q rest i
      have hPL1 : partialLen hav (p :: q :: rest) (i + 1 + 1) =
          hav p q + partialLen hav (q :: rest) (i + 1) :=
        partialLen_succ_head hav p q rest (i + 1)
      have hres := ih (q :: rest) (t - hav p q) (by linarith)
        (by rw [hPL0] at h0; linarith) (by rw [hPL1] at h1; linarith)
        (by simpa using Nat.lt_of_succ_lt_succ hlen)
      rw [hres]
      have hg1 : (p :: q :: rest).getD (i + 1) ⟨0, 0⟩ = (q :: rest).getD i ⟨0, 0⟩ := rfl
      have hg2 : (p :: q :: rest).getD (i + 1 + 1) ⟨0, 0⟩ =
          (q :: rest).getD (i + 1) ⟨0, 0⟩ := rfl
      rw [hg1, hg2, hPL0]
      have harg : t - (hav p q + partialLen hav (q :: rest) i) =
          t - hav p q - partialLen hav (q :: rest) i := by ring
      rw [harg]

/-- With every segment of positive length, walking exactly the total length
lands on the last point. -/
theorem routeWalk_exact (hav : Coord → Coord → ℚ) (hnn : ∀ a b, 0 ≤ hav a b) :
    ∀ (rest : List Coord) (p q : Coord), segsPos hav (p :: q :: rest) →
      routeWalk hav p (q :: rest) (routeTotalLen hav (p :: q :: rest)) =
        (p :: q :: rest).getLastD ⟨0, 0⟩ := by
  intro rest
  induction rest with
  | nil =>
    intro p q hpos
    obtain ⟨hpq, -⟩ := hpos
    have htot : routeTotalLen hav [p, q] = hav p q + 0 := rfl
    rw [htot, routeWalk_cons, if_pos (by linarith), if_neg (by linarith)]
    rw [add_zero, div_self (by linarith)]
    show lerp p q 1 = q
    unfold lerp
    have hlat : p.lat + (q.lat - p.lat) * 1 = q.lat := by ring
    have hlng : p.lng + (q.lng - p.lng) * 1 = q.lng := by ring
    rw [hlat, hlng]
  | cons r rest' ih =>
    intro p q hpos
    obtain ⟨hpq, hpos'⟩ := hpos
    have hqr : 0 < hav q r := hpos'.1
    have htot' := routeTotalLen_nonneg hav hnn (r :: rest')
    have htot2 : routeTotalLen hav (p :: q :: r :: rest') =
        hav p q + routeTotalLen hav (q :: r :: rest') := rfl
    have htot3 : routeTotalLen hav (q :: r :: rest') =
        hav q r + routeTotalLen hav (r :: rest') := rfl
    have hbig : ¬ routeTotalLen hav (p :: q :: r :: rest') ≤ hav p q := by
      rw [htot2, htot3]
      linarith
    rw [routeWalk_cons, if_neg hbig]
    have harg : routeTotalLen hav (p :: q :: r :: rest') - hav p q =
        routeTotalLen hav (q :: r :: rest') := by rw [htot2]; ring
    rw [harg]
    exact ih q r ⟨hqr, hpos'.2⟩

/-- C7 (amended): `pointAtDistanceAlongRoute` returns the `(0,0)` sentinel on
an empty route; the first point when `t ≤ 0`; the last point whenever `t`
strictly exceeds the total polyline length; the linearly interpolated point
inside the first segment whose cumulative distance reaches `t` when
`0 < t ≤` total; and at `t` exactly the total it still returns the last point
provided every segment has positive length.  (The claim's "at least the total
length" fails when a zero-length segment — realisable by the exact haversine
between distinct points at latitude 90° — ends the route.) -/
theorem pointAtDistanceAlongRoute_claimC7 (hav : Coord → Coord → ℚ)
    (hnn : ∀ a b, 0 ≤ hav a b) (route : List Coord) (t : ℚ) :
    (route = [] → pointAtDistanceAlongRoute hav route t = ⟨0, 0⟩) ∧
    (t ≤ 0 → ∀ p rest, route = p :: rest →
      pointAtDistanceAlongRoute hav route t = p) ∧
    (routeTotalLen hav route < t →
      pointAtDistanceAlongRoute hav route t = route.getLastD ⟨0, 0⟩) ∧
    (∀ i : ℕ, 0 < t → partialLen hav route i < t →
      t ≤ partialLen hav route (i + 1) → i + 1 < route.length →
      pointAtDistanceAlongRoute hav route t =
        lerp (route.getD i ⟨0, 0⟩) (route.getD (i + 1) ⟨0, 0⟩)
          (if hav (route.getD i ⟨0, 0⟩) (route.getD (i + 1) ⟨0, 0⟩) = 0 then 0
           else (t - partialLen hav route i) /
             hav (route.getD i ⟨0, 0⟩) (route.getD (i + 1) ⟨0, 0⟩))) ∧
    (segsPos hav route → t = routeTotalLen hav route → 0 < t →
      pointAtDistanceAlongRoute hav route t = route.getLastD ⟨0, 0⟩) := by
  refine ⟨?_, ?_, ?_, ?_, ?_⟩
  · intro h; subst h; rfl
  · intro ht p rest h
    subst h
    rw [pointAtDistanceAlongRoute_cons, if_pos ht]
  · intro h
    match route with
    | [] => rfl
    | p :: rest =>
      have h0 := routeTotalLen_nonneg hav hnn (p :: rest)
      rw [pointAtDistanceAlongRoute_cons, if_neg (by linarith)]
      exact routeWalk_beyond hav hnn rest p t h
  · intro i ht h0 h1 hlen
    exact pointAtDistanceAlongRoute_reach hav hnn i route t ht h0 h1 hlen
  · intro hpos heq ht
    match route with
    | [] =>
      rw [heq]
      rfl
    | [p] =>
      have h1 : routeTotalLen hav [p] = 0 := rfl
      rw [h1] at heq
      subst heq
      exact absurd ht (by norm_num)
    | p :: q :: rest =>
      rw [pointAtDistanceAlongRoute_cons, if_neg (by linarith)]
      subst heq
      exact routeWalk_exact hav hnn rest p q hpos

/-- A distance function behaving like the exact haversine near the north
pole: distinct points at latitude 90 are at great-circle distance exactly 0
(`dLat = 0` and `cos(π/2) = 0` make the haversine term vanish), while the
remaining segment has positive length. -/
def polarHav (a b : Coord) : ℚ :=
  if a.lat = 90 ∧ b.lat = 90 then 0 else 1

theorem polarHav_nonneg (a b : Coord) : 0 ≤ polarHav a b := by
  unfold polarHav
  split <;> norm_num

/-- The polar route whose final segment joins two distinct points at latitude
90 and hence has exact haversine length 0. -/
def polarRoute : List Coord := [⟨0, 0⟩, ⟨90, 0⟩, ⟨90, 50⟩]

/-- C7 — counterexample to the claim as stated: at `t = 1`, which is at least
the total polyline length (1 + 0 = 1), the function returns the end of the
first segment, `(90, 0)`, not the route's last point `(90, 50)`. -/
theorem pointAtDistanceAlongRoute_claimC7_counterexample :
    routeTotalLen polarHav polarRoute = 1 ∧
    pointAtDistanceAlongRoute polarHav polarRoute 1 = ⟨90, 0⟩ ∧
    polarRoute.getLastD ⟨0, 0⟩ = ⟨90, 50⟩ ∧
    pointAtDistanceAlongRoute polarHav polarRoute 1 ≠ polarRoute.getLastD ⟨0, 0⟩ := by
  refine ⟨by with_unfolding_all decide, by with_unfolding_all decide,
    by with_unfolding_all decide, by with_unfolding_all decide⟩

/-- C7 — witness: on a three-point route with unit segments, the function
returns the first point at `t = 0`, the last point at `t = 5 >` total `2`, the
midpoint of the second segment at `t = 3/2`, and the last point at `t =` total
`2` (all segments positive). -/
theorem pointAtDistanceAlongRoute_claimC7_witness :
    pointAtDistanceAlongRoute (fun _ _ => 1) [⟨0, 0⟩, ⟨1, 0⟩, ⟨2, 0⟩] 0 = ⟨0, 0⟩ ∧
    pointAtDistanceAlongRoute (fun _ _ => 1) [⟨0, 0⟩, ⟨1, 0⟩, ⟨2, 0⟩] 5 = ⟨2, 0⟩ ∧
    pointAtDistanceAlongRoute (fun _ _ => 1) [⟨0, 0⟩, ⟨1, 0⟩, ⟨2, 0⟩] (3 / 2) =
      lerp ⟨1, 0⟩ ⟨2, 0⟩ (1 / 2) ∧
    pointAtDistanceAlongRoute (fun _ _ => 1) [⟨0, 0⟩, ⟨1, 0⟩, ⟨2, 0⟩] 2 = ⟨2, 0⟩ := by
  have h0 := pointAtDistanceAlongRoute_claimC7 (fun _ _ => 1)
    (fun _ _ => by norm_num) [⟨0, 0⟩, ⟨1, 0⟩, ⟨2, 0⟩] 0
  have h5 := pointAtDistanceAlongRoute_claimC7 (fun _ _ => 1)
    (fun _ _ => by norm_num) [⟨0, 0⟩, ⟨1, 0⟩, ⟨2, 0⟩] 5
  have h32 := pointAtDistanceAlongRoute_claimC7 (fun _ _ => 1)
    (fun _ _ => by norm_num) [⟨0, 0⟩, ⟨1, 0⟩, ⟨2, 0⟩] (3 / 2)
  have h2 := pointAtDistanceAlongRoute_claimC7 (fun _ _ => 1)
    (fun _ _ => by norm_num) [⟨0, 0⟩, ⟨1, 0⟩, ⟨2, 0⟩] 2
  refine ⟨h0.2.1 (le_refl 0) ⟨0, 0⟩ [⟨1, 0⟩, ⟨2, 0⟩] rfl, ?_, ?_, ?_⟩
  · have := h5.2.2.1 (by with_unfolding_all decide)
    simpa using this
  · have := h32.2.2.2.1 1 (by norm_num) (by with_unfolding_all decide)
      (by with_unfolding_all decide) (by norm_num)
    rw [this]
    have harg : ((fun (_ _ : Coord) => (1 : ℚ)) ⟨1, 0⟩ ⟨2, 0⟩) = 1 := rfl
    simp only [List.getD]
    norm_num [partialLen]
  · have := h2.2.2.2.2 (by with_unfolding_all decide) (by with_unfolding_all decide)
      (by norm_num)
    simpa using this

/-! ## tripPlannerService: stop selection (chooseBestStop) -/

/-- `PlannedChargingStop` (tripPlannerService.ts lines 29-44). -/
structure PlannedChargingStop where
  id : String
  name : String
  address : String
  latitude : ℚ
  longitude : ℚ
  powerKw : ℚ
  distanceFromRouteKm : ℚ
  distanceFromStartKm : ℚ
  isFastCharger : Bool
  isSolarPreferred : Bool
  energySource : EnergySource
  estimatedChargingCostInr : ℚ
  estimatedUnitPriceInr : ℚ
  discountPercent : ℚ
deriving DecidableEq, Repr

/-- `maxPowerKw` (tripPlannerService.ts lines 161-163): `station.maxPowerKw
|| 0`, which on exact rationals is the identity (0 is the only falsy value
and maps to itself). -/
def stationMaxPowerKw (station : SolarAwareStation) : ℚ :=
  station.maxPowerKw

/-- `minDistanceToRouteKm` (tripPlannerService.ts lines 330-340): sample the
route at stride `max 1 ⌊length / 120⌋` (indices `0, step, 2·step, …`) and take
the minimum sampled distance, rounded to 2 decimals; 0 for an empty route. -/
def minDistanceToRouteKm (hav : Coord → Coord → ℚ) (point : Coord)
    (route : List Coord) : ℚ :=
  if route.length = 0 then 0
  else
    let sampleStep := max 1 (route.length / 120)
    let ds := ((List.range route.length).filter
      (fun i => i % sampleStep = 0)).map
      (fun i => hav point (route.getD i ⟨0, 0⟩))
    round2 (ds.foldl min (ds.headD 0))

/-- The intermediate candidate record built inside `chooseBestStop`
(`{ station, power, solar, distanceFromRouteKm }`). -/
structure StopCandidate where
  station : SolarAwareStation
  power : ℚ
  solar : Bool
  distanceFromRouteKm : ℚ
deriving DecidableEq, Repr

/-- The `available` binding of `chooseBestStop`: stations not already
selected, enriched with power, solar flag and route distance. -/
def availableCandidates (hav : Coord → Coord → ℚ)
    (stationsNear : Coord → List SolarAwareStation) (point : Coord)
    (route : List Coord) (selectedIds : List String) : List StopCandidate :=
  ((stationsNear point).filter (fun s => decide (s.id ∉ selectedIds))).map
    (fun station =>
      ⟨station, stationMaxPowerKw station, station.isSolarPowered,
        minDistanceToRouteKm hav ⟨station.latitude, station.longitude⟩ route⟩)

/-- The `pool` binding of `chooseBestStop`: the fast-charger subpool
(`fastCandidates`, ≥ 50 kW = `MIN_FAST_CHARGER_KW`) when non-empty, otherwise
the full pool. -/
def chosenPool (available : List StopCandidate) : List StopCandidate :=
  if 0 < (available.filter (fun c => decide (50 ≤ c.power))).length then
    available.filter (fun c => decide (50 ≤ c.power))
  else available

/-- The `minDistanceInPool` binding of `chooseBestStop`
(`Math.min(...pool.map(c => c.distanceFromRouteKm))`). -/
def minDistanceInPool (pool : List StopCandidate) : ℚ :=
  match pool.map (fun c => c.distanceFromRouteKm) with
  | [] => 0
  | d :: ds => ds.foldl min d

/-- A candidate together with its `solarWithMinimalDetour` flag. -/
structure RankedStop where
  candidate : StopCandidate
  solarWithMinimalDetour : Bool
deriving DecidableEq, Repr

/-- The flagging step of `chooseBestStop`: solar/hybrid and within
`MIN_SOLAR_DETOUR_WINDOW_KM = 2` km of the pool's minimum route distance. -/
def rankStops (pool : List StopCandidate) : List RankedStop :=
  pool.map (fun c =>
    ⟨c, c.solar && decide (c.distanceFromRouteKm ≤ minDistanceInPool pool + 2)⟩)

/-- The sort key of the source's three-level comparator: flagged candidates
first (`0 < 1`), then ascending route distance, then descending power. -/
def rankKey (a : RankedStop) : ℕ ×ₗ (ℚ ×ₗ ℚ) :=
  (if a.solarWithMinimalDetour then 0 else 1,
    (a.candidate.distanceFromRouteKm, -a.candidate.power))

/-- The total preorder induced by the comparator of `chooseBestStop`
(tripPlannerService.ts lines 403-411): `a` may precede `b` iff the comparator
is `≤ 0` on `(a, b)`. -/
def rankedLE (a b : RankedStop) : Prop :=
  rankKey a ≤ rankKey b

instance : DecidableRel rankedLE := fun a b => by
  unfold rankedLE; infer_instance

instance : IsTotal RankedStop rankedLE :=
  ⟨fun a b => le_total (rankKey a) (rankKey b)⟩

instance : IsTrans RankedStop rankedLE :=
  ⟨fun _ _ _ h1 h2 => le_trans h1 h2⟩

/-- The construction of the returned `PlannedChargingStop` from the picked
ranked candidate (tripPlannerService.ts lines 416-433). -/
def mkPlannedStop (picked : RankedStop) (distanceFromStartKm energyRequiredKwh : ℚ) :
    PlannedChargingStop :=
  let chargingCost := calculateChargingCost energyRequiredKwh picked.candidate.station
  { id := picked.candidate.station.id
    name := picked.candidate.station.name
    address := picked.candidate.station.address
    latitude := picked.candidate.station.latitude
    longitude := picked.candidate.station.longitude
    powerKw := picked.candidate.power
    distanceFromRouteKm := picked.candidate.distanceFromRouteKm
    distanceFromStartKm := round1 distanceFromStartKm
    isFastCharger := decide (50 ≤ picked.candidate.power)
    isSolarPreferred := picked.solarWithMinimalDetour
    energySource := picked.candidate.station.energySource.getD .grid
    estimatedChargingCostInr := chargingCost.totalCost
    estimatedUnitPriceInr := chargingCost.effectivePricePerKwh
    discountPercent := chargingCost.discountAppliedPercent }

/-- `chooseBestStop` (tripPlannerService.ts lines 359-434), parametrised by
the distance function and the charger fetcher (`fetchChargersNearPoint`,
whose returned stations already carry the solar annotation).  The source adds
the picked id to the caller's mutable `selectedIds` set; in this embedding the
caller (the planning loop) records it. -/
def chooseBestStop (hav : Coord → Coord → ℚ)
    (stationsNear : Coord → List SolarAwareStation) (point : Coord)
    (route : List Coord) (distanceFromStartKm energyRequiredKwh : ℚ)
    (selectedIds : List String) : Option PlannedChargingStop :=
  if (stationsNear point).length = 0 then none
  else if (availableCandidates hav stationsNear point route selectedIds).length = 0 then
    none
  else
    match ((rankStops (chosenPool
        (availableCandidates hav stationsNear point route selectedIds))).insertionSort
        rankedLE).head? with
    | none => none
    | some picked => some (mkPlannedStop picked distanceFromStartKm energyRequiredKwh)

theorem foldl_min_le_init (l : List ℚ) : ∀ d : ℚ, l.foldl min d ≤ d := by
  induction l with
  | nil => intro d; exact le_refl d
  | cons x xs ih =>
    intro d
    calc xs.foldl min (min d x) ≤ min d x := ih (min d x)
      _ ≤ d := min_le_left d x

theorem foldl_min_le_mem (l : List ℚ) : ∀ d x, x ∈ l → l.foldl min d ≤ x := by
  induction l with
  | nil => intro d x hx; exact absurd hx (List.not_mem_nil x)
  | cons y ys ih =>
    intro d x hx
    rcases List.mem_cons.mp hx with h | h
    · subst h
      calc ys.foldl min (min d x) ≤ min d x := foldl_min_le_init ys (min d x)
        _ ≤ x := min_le_right d x
    · exact ih (min d y) x h

theorem foldl_min_mem (l : List ℚ) : ∀ d, l.foldl min d = d ∨ l.foldl min d ∈ l := by
  induction l with
  | nil => intro d; exact Or.inl rfl
  | cons y ys ih =>
    intro d
    rcases ih (min d y) with h | h
    · rcases min_cases d y with ⟨hm, -⟩ | ⟨hm, -⟩
      · exact Or.inl (by rw [List.foldl_cons, h, hm])
      · exact Or.inr (by rw [List.foldl_cons, h, hm]; exact List.mem_cons_self y ys)
    · exact Or.inr (List.mem_cons_of_mem y h)

/-- `minDistanceInPool` is a lower bound on the route distances of the pool. -/
theorem minDistanceInPool_le (pool : List StopCandidate) :
    ∀ c ∈ pool, minDistanceInPool pool ≤ c.distanceFromRouteKm := by
  intro c hc
  unfold minDistanceInPool
  cases hm : pool.map (fun c => c.distanceFromRouteKm) with
  | nil =>
    have : c.distanceFromRouteKm ∈ pool.map (fun c => c.distanceFromRouteKm) :=
      List.mem_map_of_mem _ hc
    rw [hm] at this
    exact absurd this (List.not_mem_nil _)
  | cons d ds =>
    have hmem : c.distanceFromRouteKm ∈ d :: ds := by
      rw [← hm]
      exact List.mem_map_of_mem _ hc
    rcases List.mem_cons.mp hmem with h | h
    · rw [← h]
      exact foldl_min_le_init ds _
    · exact foldl_min_le_mem ds d _ h

/-- `minDistanceInPool` of a non-empty pool is attained by some pool member. -/
theorem minDistanceInPool_mem (pool : List StopCandidate) (hne : pool ≠ []) :
    ∃ c ∈ pool, c.distanceFromRouteKm = minDistanceInPool pool := by
  unfold minDistanceInPool
  cases hm : pool.map (fun c => c.distanceFromRouteKm) with
  | nil =>
    exact absurd (List.map_eq_nil_iff.mp hm) hne
  | cons d ds =>
    have hmem : ds.foldl min d ∈ d :: ds := by
      rcases foldl_min_mem ds d with h | h
      · rw [h]; exact List.mem_cons_self d ds
      · exact List.mem_cons_of_mem d h
    rw [← hm] at hmem
    obtain ⟨c, hc, hceq⟩ := List.mem_map.mp hmem
    exact ⟨c, hc, hceq⟩

/-- C2: in `chooseBestStop`, whenever the available candidate pool is
non-empty, the chosen pool is the fast-charger subpool (≥ 50 kW) if that is
non-empty and the full pool otherwise; `minDistanceInPool` is the minimum
route-distance over the chosen pool; every ranked candidate is flagged
solar-preferred-with-minimal-detour iff it is solar/hybrid and its route
distance is within 2 km of that minimum; and the function picks a stop built
from a ranked candidate of the chosen pool that is minimal under the ordering
"flagged first, then ascending route-distance, then descending power". -/
theorem chooseBestStop_claimC2 (hav : Coord → Coord → ℚ)
    (stationsNear : Coord → List SolarAwareStation) (point : Coord)
    (route : List Coord) (distanceFromStartKm energyRequiredKwh : ℚ)
    (selectedIds : List String)
    (hne : availableCandidates hav stationsNear point route selectedIds ≠ []) :
    ((availableCandidates hav stationsNear point route selectedIds).filter
        (fun c => decide (50 ≤ c.power)) ≠ [] →
      chosenPool (availableCandidates hav stationsNear point route selectedIds) =
        (availableCandidates hav stationsNear point route selectedIds).filter
          (fun c => decide (50 ≤ c.power))) ∧
    ((availableCandidates hav stationsNear point route selectedIds).filter
        (fun c => decide (50 ≤ c.power)) = [] →
      chosenPool (availableCandidates hav stationsNear point route selectedIds) =
        availableCandidates hav stationsNear point route selectedIds) ∧
    (∀ c ∈ chosenPool (availableCandidates hav stationsNear point route selectedIds),
      minDistanceInPool (chosenPool
        (availableCandidates hav stationsNear point route selectedIds)) ≤
        c.distanceFromRouteKm) ∧
    (∃ c ∈ chosenPool (availableCandidates hav stationsNear point route selectedIds),
      c.distanceFromRouteKm = minDistanceInPool (chosenPool
        (availableCandidates hav stationsNear point route selectedIds))) ∧
    (∀ r ∈ rankStops (chosenPool
        (availableCandidates hav stationsNear point route selectedIds)),
      (r.solarWithMinimalDetour = true ↔
        (r.candidate.solar = true ∧ r.candidate.distanceFromRouteKm ≤
          minDistanceInPool (chosenPool
            (availableCandidates hav stationsNear point route selectedIds)) + 2))) ∧
    (∃ picked,
      chooseBestStop hav stationsNear point route distanceFromStartKm
          energyRequiredKwh selectedIds =
        some (mkPlannedStop picked distanceFromStartKm energyRequiredKwh) ∧
      picked ∈ rankStops (chosenPool
        (availableCandidates hav stationsNear point route selectedIds)) ∧
      ∀ r ∈ rankStops (chosenPool
        (availableCandidates hav stationsNear point route selectedIds)),
        rankedLE picked r) := by
  set available := availableCandidates hav stationsNear point route selectedIds with havail
  have hpool_ne : chosenPool available ≠ [] := by
    unfold chosenPool
    split
    · rename_i hfast
      intro hcon
      rw [hcon] at hfast
      simp at hfast
    · exact hne
  have hrank_ne : rankStops (chosenPool available) ≠ [] := by
    unfold rankStops
    simpa using hpool_ne
  refine ⟨?_, ?_, minDistanceInPool_le _, minDistanceInPool_mem _ hpool_ne, ?_, ?_⟩
  · intro hfast
    unfold chosenPool
    rw [if_pos (by simpa [List.length_pos] using hfast)]
  · intro hfast
    unfold chosenPool
    rw [hfast]
    simp
  · intro r hr
    unfold rankStops at hr
    obtain ⟨c, hc, hceq⟩ := List.mem_map.mp hr
    subst hceq
    simp only [Bool.and_eq_true, decide_eq_true_eq]
  · set ranked := (rankStops (chosenPool available)).insertionSort rankedLE with hranked
    have hranked_ne : ranked ≠ [] := by
      obtain ⟨x, rest0, hx⟩ := List.exists_cons_of_ne_nil hrank_ne
      have hxm : x ∈ ranked := by
        rw [hranked]
        refine (List.mem_insertionSort rankedLE).mpr ?_
        rw [hx]
        exact List.mem_cons_self _ _
      intro hcon
      rw [hcon] at hxm
      exact List.not_mem_nil x hxm
    obtain ⟨picked, rest, hcons⟩ := List.exists_cons_of_ne_nil hranked_ne
    have hsn : ¬ (stationsNear point).length = 0 := by
      intro hcon
      apply hne
      rw [havail]
      unfold availableCandidates
      rw [List.length_eq_zero] at hcon
      rw [hcon]
      rfl
    refine ⟨picked, ?_, ?_, ?_⟩
    · unfold chooseBestStop
      rw [if_neg hsn, if_neg (by simpa [List.length_eq_zero, ← havail] using hne),
        ← havail, ← hranked, hcons]
      rfl
    · have hm : picked ∈ ranked := by rw [hcons]; exact List.mem_cons_self _ _
      rw [hranked] at hm
      exact (List.mem_insertionSort rankedLE).mp hm
    · intro r hr
      have hsorted : List.Sorted rankedLE ranked :=
        List.sorted_insertionSort rankedLE _
      rw [hcons] at hsorted
      have hrmem : r ∈ ranked := by
        rw [hranked]
        exact (List.mem_insertionSort rankedLE).mpr hr
      rw [hcons] at hrmem
      rcases List.mem_cons.mp hrmem with h | h
      · subst h
        exact le_refl (rankKey r)
      · exact List.rel_of_sorted_cons hsorted r h

/-- A one-element pool for the C2 witness: a single 60 kW grid station 1 km
from the route. -/
def stationsNearC2 : Coord → List SolarAwareStation :=
  fun _ => [⟨"s1", "Fast One", "addr", 1, 1, 60, false, some .grid, none⟩]

/-- C2 — witness: a concrete pool with one fast grid charger; the fast
subpool is chosen, the flag is false, and the picked stop is the minimal
(only) candidate. -/
theorem chooseBestStop_claimC2_witness :
    availableCandidates (fun _ _ => 1) stationsNearC2 ⟨0, 0⟩ [⟨0, 0⟩] [] ≠ [] ∧
    ∃ picked,
      chooseBestStop (fun _ _ => 1) stationsNearC2 ⟨0, 0⟩ [⟨0, 0⟩] 10 2 [] =
        some (mkPlannedStop picked 10 2) ∧
      picked ∈ rankStops (chosenPool
        (availableCandidates (fun _ _ => 1) stationsNearC2 ⟨0, 0⟩ [⟨0, 0⟩] [])) ∧
      ∀ r ∈ rankStops (chosenPool
        (availableCandidates (fun _ _ => 1) stationsNearC2 ⟨0, 0⟩ [⟨0, 0⟩] [])),
        rankedLE picked r := by
  have h := chooseBestStop_claimC2 (fun _ _ => 1) stationsNearC2 ⟨0, 0⟩ [⟨0, 0⟩]
    10 2 [] (by with_unfolding_all decide)
  exact ⟨by with_unfolding_all decide, h.2.2.2.2.2⟩

/-! ## tripPlannerService: planEvTrip -/

/-- The `code` variants of `TripPlannerError` (tripPlannerService.ts lines
91-108). -/
inductive TripPlannerErrorCode
  | missingOrsKey
  | invalidLocation
  | routeNotFound
  | noChargersFound
  | networkError
  | unknown
deriving DecidableEq, Repr

/-- `TripPlannerError`: an error code together with the human message. -/
structure TripPlannerError where
  code : TripPlannerErrorCode
  message : String
deriving DecidableEq, Repr

/-- The `communityRescue` field of `RoutePlanResult` (tripPlannerService.ts
lines 59-69). -/
structure CommunityRescueInfo where
  enabled : Bool
  triggered : Bool
  rescueFound : Bool
  donorVehicleId : Option String := none
  transferredEnergyKwh : ℚ
  emergencyRangeGainedKm : ℚ
  nearestChargerReachable : Bool
  nearestReachableChargerName : Option String := none
  reason : String
deriving DecidableEq, Repr

/-- The `estimatedCost` field of `RoutePlanResult` (currency always "INR"). -/
structure EstimatedCost where
  currency : String
  estimatedTotal : ℚ
  note : String
deriving DecidableEq, Repr

/-- The `batteryModel` field of `RoutePlanResult`. -/
structure BatteryModel where
  consumptionPerKm : ℚ
  note : String
deriving DecidableEq, Repr

/-- The `mapData` field of `RoutePlanResult`. -/
structure MapData where
  route : List Coord
  stops : List Coord
deriving DecidableEq, Repr

/-- The `sustainability` field of `RoutePlanResult`. -/
structure Sustainability where
  score : ℚ
  co2SavingsKg : ℚ
  note : String
deriving DecidableEq, Repr

/-- `RoutePlanResult` (tripPlannerService.ts lines 46-89). -/
structure RoutePlanResult where
  start : List Char
  destination : List Char
  startCoordinate : Coord
  destinationCoordinate : Coord
  totalDistanceKm : ℚ
  usableRangeKm : ℚ
  planningLegRangeKm : ℚ
  requiresCharging : Bool
  chargingStopsRequired : ℕ
  chargingStops : List PlannedChargingStop
  message : String
  routeGeometry : List Coord
  communityRescue : Option CommunityRescueInfo := none
  estimatedCost : EstimatedCost
  batteryModel : BatteryModel
  mapData : MapData
  sustainability : Sustainability
deriving DecidableEq, Repr

/-- The parameters of `planEvTrip` (tripPlannerService.ts lines 471-478). -/
structure PlanEvTripParams where
  startLocation : List Char
  destination : List Char
  evMaxRangeKm : ℚ
  currentBatteryPercent : ℚ
  enableCommunityRescue : Option Bool := none
  communityVehicles : Option (List CommunityRescueVehicle) := none

/-- The resolved external collaborators of one planning call: the distance
function standing for `haversineKm`, the geocoded endpoint coordinates, the
fetched route (`fetchRoute`) and the charger directory
(`fetchChargersNearPoint`, returning solar-aware stations). -/
structure TripEnv where
  hav : Coord → Coord → ℚ
  startCoord : Coord
  destCoord : Coord
  routeDistanceKm : ℚ
  routeGeometry : List Coord
  stationsNear : Coord → List SolarAwareStation

/-- `calculateUsableRangeKm` (tripPlannerService.ts lines 462-469). -/
def calculateUsableRangeKm (evMaxRangeKm currentBatteryPercent : ℚ) : ℚ :=
  round2 (min (max currentBatteryPercent 0) 100 / 100 * max evMaxRangeKm 0)

/-- `createSimulatedCommunityVehicles` (tripPlannerService.ts lines
436-460). -/
def createSimulatedCommunityVehicles (routePoint : Coord) :
    List CommunityRescueVehicle :=
  [⟨"EV-COMM-101", ⟨routePoint.lat + 18 / 1000, routePoint.lng - 12 / 1000⟩,
      "same corridor outbound".toList, 62, true⟩,
    ⟨"EV-COMM-202", ⟨routePoint.lat - 26 / 1000, routePoint.lng + 1 / 100⟩,
      "nearby local route".toList, 48, true⟩,
    ⟨"EV-COMM-303", ⟨routePoint.lat + 8 / 100, routePoint.lng + 5 / 100⟩,
      "different route".toList, 72, false⟩]

/-- The `planningLegRangeKm` binding of `planEvTrip`:
usable range × `RANGE_BUFFER_FACTOR` (0.9), rounded to 2 decimals. -/
def planningLegRangeKm (p : PlanEvTripParams) : ℚ :=
  round2 (calculateUsableRangeKm p.evMaxRangeKm p.currentBatteryPercent * (9 / 10))

/-- The `estimatedConsumptionKwhPerKm` binding of `planEvTrip`:
`1 / DEFAULT_EFFICIENCY_KM_PER_KWH` (4.5), rounded to 3 decimals. -/
def estimatedConsumptionKwhPerKm : ℚ :=
  round3 (1 / (9 / 2))

/-- The `stopsNeeded` binding of `planEvTrip`:
`Math.ceil(route.distanceKm / planningLegRangeKm) - 1` (as loop bound). -/
def stopsNeeded (env : TripEnv) (p : PlanEvTripParams) : ℕ :=
  (⌈env.routeDistanceKm / planningLegRangeKm p⌉ - 1).toNat

/-- The initial `rescueDetails` binding of `planEvTrip`. -/
def initialRescueDetails (p : PlanEvTripParams) : CommunityRescueInfo :=
  { enabled := decide (p.enableCommunityRescue ≠ some false)
    triggered := false
    rescueFound := false
    transferredEnergyKwh := 0
    emergencyRangeGainedKm := 0
    nearestChargerReachable := false
    reason := "Rescue mode not required." }

/-- The `batteryModel.consumptionPerKm` field:
`1 / Math.max(evMaxRangeKm, 1)` rounded to 4 decimals. -/
def consumptionPerKmOf (p : PlanEvTripParams) : ℚ :=
  round4 (1 / max p.evMaxRangeKm 1)

/-- The rescue simulation performed inside the planning loop when no charger
is found near a segment (tripPlannerService.ts lines 580-615). -/
def loopRescueInfo (env : TripEnv) (p : PlanEvTripParams) (routePoint : Coord) :
    CommunityRescueInfo :=
  let fallbackVehicles :=
    p.communityVehicles.getD (createSimulatedCommunityVehicles routePoint)
  let matchedRescueVehicles := findNearbyRescueVehicles env.hav
    { receiverLocation := routePoint
      receiverRouteDirection := p.startLocation ++ '-' :: p.destination
      vehicles := fallbackVehicles
      maxDistanceKm := some 10
      minimumDonorBatteryPercent := some 40 }
  let rescueSimulation := simulateReverseCharging env.hav
    { receiverCurrentBatteryPercent := p.currentBatteryPercent
      receiverBatteryCapacityKwh := 60
      receiverLocation := routePoint
      rescueCandidates := matchedRescueVehicles
      chargingStations := (env.stationsNear routePoint).map
        (fun s => ⟨s.id, s.name, s.latitude, s.longitude⟩)
      donorBatteryCapacityKwh := some 70
      transferKwhRange := some ⟨5, 10⟩
      donorSafeBatteryFloorPercent := some 25
      receiverKmPerKwh := some (9 / 2)
      oneRescuePerTrip := some true
      alreadyRescuedOnTrip := some false }
  { enabled := true
    triggered := true
    rescueFound := rescueSimulation.rescueFound
    donorVehicleId := rescueSimulation.donorVehicleId
    transferredEnergyKwh := rescueSimulation.transferredEnergyKwh
    emergencyRangeGainedKm := rescueSimulation.emergencyRangeGainedKm
    nearestChargerReachable := rescueSimulation.nearestChargerReachable
    nearestReachableChargerName := rescueSimulation.nearestReachableChargerName
    reason := rescueSimulation.reason }

/-- The route-segmentation loop of `planEvTrip` (tripPlannerService.ts lines
558-629), recursing on the number of remaining leg boundaries.  `selectedIds`
holds the ids the source's mutable `Set` has accumulated; the picked stop's
id is recorded when the stop is appended. -/
def planLoop (env : TripEnv) (p : PlanEvTripParams) :
    ℕ → ℕ → List String → List PlannedChargingStop → CommunityRescueInfo →
    Except TripPlannerError (List PlannedChargingStop × CommunityRescueInfo)
  | 0, _, _, stops, rescue => .ok (stops, rescue)
  | fuel + 1, i, selectedIds, stops, rescue =>
    match chooseBestStop env.hav env.stationsNear
        (pointAtDistanceAlongRoute env.hav env.routeGeometry (planningLegRangeKm p * i))
        env.routeGeometry (planningLegRangeKm p * i)
        (round2 (planningLegRangeKm p * estimatedConsumptionKwhPerKm)) selectedIds with
    | some stop =>
      planLoop env p fuel (i + 1) (stop.id :: selectedIds) (stops ++ [stop]) rescue
    | none =>
      if (detectOutOfChargeScenario
            { batteryPercent := p.currentBatteryPercent
              criticalThresholdPercent := some 5
              nearbyStationsCount := 0
              stationRadiusKm := 20 }).shouldTriggerRescue &&
          decide (p.enableCommunityRescue ≠ some false) then
        if (loopRescueInfo env p
            (pointAtDistanceAlongRoute env.hav env.routeGeometry
              (planningLegRangeKm p * i))).rescueFound then
          .ok (stops, loopRescueInfo env p
            (pointAtDistanceAlongRoute env.hav env.routeGeometry
              (planningLegRangeKm p * i)))
        else
          .error ⟨.noChargersFound,
            "No charging station found near segment " ++ toString i ++
              ". Community rescue status: " ++
              (loopRescueInfo env p
                (pointAtDistanceAlongRoute env.hav env.routeGeometry
                  (planningLegRangeKm p * i))).reason⟩
      else
        .error ⟨.noChargersFound,
          "No charging station found near segment " ++ toString i ++ ". " ++
            (if rescue.triggered then
              "Community rescue status: " ++ rescue.reason
             else "Try a different start/destination or higher battery level.")⟩

/-- The early "no charging needed" result of `planEvTrip` (tripPlannerService.ts
lines 491-533). -/
def noChargeResult (env : TripEnv) (p : PlanEvTripParams) : RoutePlanResult :=
  { start := p.startLocation
    destination := p.destination
    startCoordinate := env.startCoord
    destinationCoordinate := env.destCoord
    totalDistanceKm := env.routeDistanceKm
    usableRangeKm := calculateUsableRangeKm p.evMaxRangeKm p.currentBatteryPercent
    planningLegRangeKm := planningLegRangeKm p
    requiresCharging := false
    chargingStopsRequired := 0
    chargingStops := []
    message := "You can reach your destination without charging."
    routeGeometry := env.routeGeometry
    communityRescue := some
      { enabled := decide (p.enableCommunityRescue ≠ some false)
        triggered := false
        rescueFound := false
        transferredEnergyKwh := 0
        emergencyRangeGainedKm := 0
        nearestChargerReachable := false
        reason := "Trip can be completed without rescue support." }
    estimatedCost := ⟨"INR", 0, "No charging stop required for this trip."⟩
    batteryModel := ⟨consumptionPerKmOf p,
      "Default normalized consumption model (battery fraction per km)."⟩
    mapData := ⟨env.routeGeometry, []⟩
    sustainability := ⟨100, 0, "No charging stop required for this route."⟩ }

/-- The successful segmented-plan result of `planEvTrip` (tripPlannerService.ts
lines 631-674). -/
def planSuccessResult (env : TripEnv) (p : PlanEvTripParams)
    (chargingStops : List PlannedChargingStop)
    (rescueDetails : CommunityRescueInfo) : RoutePlanResult :=
  { start := p.startLocation
    destination := p.destination
    startCoordinate := env.startCoord
    destinationCoordinate := env.destCoord
    totalDistanceKm := env.routeDistanceKm
    usableRangeKm := calculateUsableRangeKm p.evMaxRangeKm p.currentBatteryPercent
    planningLegRangeKm := planningLegRangeKm p
    requiresCharging := true
    chargingStopsRequired := chargingStops.length
    chargingStops := chargingStops
    message := "Charging stops planned successfully."
    routeGeometry := env.routeGeometry
    communityRescue := some rescueDetails
    estimatedCost := ⟨"INR",
      round2 (chargingStops.foldl (fun sum stop => sum + stop.estimatedChargingCostInr) 0),
      "Estimated using base tariff Rs.12/kWh with solar/hybrid discounts when available."⟩
    batteryModel := ⟨consumptionPerKmOf p,
      "Default normalized consumption model (battery fraction per km)."⟩
    mapData := ⟨env.routeGeometry,
      chargingStops.map (fun stop => ⟨stop.latitude, stop.longitude⟩)⟩
    sustainability := ⟨round1 (min 100 (50 +
        (if 0 < chargingStops.length then
          ((chargingStops.filter (fun stop => decide (stop.energySource ≠ .grid))).length : ℚ) /
            chargingStops.length
         else 0) * 50)),
      round2 (((chargingStops.filter
        (fun stop => decide (stop.energySource ≠ .grid))).length : ℚ) * (14 / 10)),
      "Estimated from number of solar/hybrid charging stops (illustrative metric)."⟩ }

/-- `planEvTrip` (tripPlannerService.ts lines 471-689), with the geocoding and
route fetch resolved into `env` (their failure modes throw before the logic
modelled here).  The `const` bindings are the named definitions above. -/
def planEvTrip (env : TripEnv) (p : PlanEvTripParams) :
    Except TripPlannerError RoutePlanResult :=
  if env.routeDistanceKm ≤ calculateUsableRangeKm p.evMaxRangeKm p.currentBatteryPercent then
    .ok (noChargeResult env p)
  else if planningLegRangeKm p ≤ 0 then
    .error ⟨.routeNotFound,
      "Battery percentage is too low to generate a safe charging plan."⟩
  else
    match planLoop env p (stopsNeeded env p) 1 [] [] (initialRescueDetails p) with
    | .error e => .error e
    | .ok (chargingStops, rescueDetails) =>
      .ok (planSuccessResult env p chargingStops rescueDetails)

/-- C3: whenever the fetched route's total distance is at most the computed
usable range, `planEvTrip` succeeds immediately with `requiresCharging =
false`, an empty `chargingStops` list, `chargingStopsRequired = 0`, and a
community-rescue block with `triggered = false`. -/
theorem planEvTrip_claimC3 (env : TripEnv) (p : PlanEvTripParams)
    (h : env.routeDistanceKm ≤
      calculateUsableRangeKm p.evMaxRangeKm p.currentBatteryPercent) :
    planEvTrip env p = .ok (noChargeResult env p) ∧
    (noChargeResult env p).requiresCharging = false ∧
    (noChargeResult env p).chargingStops = [] ∧
    (noChargeResult env p).chargingStopsRequired = 0 ∧
    ∃ cr, (noChargeResult env p).communityRescue = some cr ∧ cr.triggered = false := by
  refine ⟨?_, rfl, rfl, rfl, _, rfl, rfl⟩
  unfold planEvTrip
  rw [if_pos h]

/-- The environment of the C3 witness: a 150 km route for a 300 km-range
vehicle at 80% battery (usable range 240 km). -/
def tripEnvC3 : TripEnv :=
  { hav := fun _ _ => 1
    startCoord := ⟨0, 0⟩
    destCoord := ⟨1, 1⟩
    routeDistanceKm := 150
    routeGeometry := [⟨0, 0⟩, ⟨1, 1⟩]
    stationsNear := fun _ => [] }

/-- The parameters of the C3 witness. -/
def tripParamsC3 : PlanEvTripParams :=
  { startLocation := "A".toList
    destination := "B".toList
    evMaxRangeKm := 300
    currentBatteryPercent := 80 }

/-- C3 — witness: the spec's scenario (240 km usable vs a 150 km route) needs
no charging: no stops, rescue not triggered. -/
theorem planEvTrip_claimC3_witness :
    tripEnvC3.routeDistanceKm ≤
      calculateUsableRangeKm tripParamsC3.evMaxRangeKm tripParamsC3.currentBatteryPercent ∧
    planEvTrip tripEnvC3 tripParamsC3 = .ok (noChargeResult tripEnvC3 tripParamsC3) ∧
    (noChargeResult tripEnvC3 tripParamsC3).requiresCharging = false ∧
    (noChargeResult tripEnvC3 tripParamsC3).chargingStops = [] ∧
    (noChargeResult tripEnvC3 tripParamsC3).chargingStopsRequired = 0 := by
  have h := planEvTrip_claimC3 tripEnvC3 tripParamsC3 (by with_unfolding_all decide)
  exact ⟨by with_unfolding_all decide, h.1, h.2.1, h.2.2.1, h.2.2.2.1⟩

/-- The chosen pool is contained in the available pool. -/
theorem mem_chosenPool (available : List StopCandidate) (c : StopCandidate)
    (hc : c ∈ chosenPool available) : c ∈ available := by
  unfold chosenPool at hc
  split at hc
  · exact List.mem_of_mem_filter hc
  · exact hc

/-- A stop returned by `chooseBestStop` carries the id of a station that was
not in the already-selected set. -/
theorem chooseBestStop_some_id (hav : Coord → Coord → ℚ)
    (stationsNear : Coord → List SolarAwareStation) (point : Coord)
    (route : List Coord) (distanceFromStartKm energyRequiredKwh : ℚ)
    (selectedIds : List String) (stop : PlannedChargingStop)
    (h : chooseBestStop hav stationsNear point route distanceFromStartKm
      energyRequiredKwh selectedIds = some stop) :
    stop.id ∉ selectedIds := by
  unfold chooseBestStop at h
  split at h
  · exact absurd h (by simp)
  · split at h
    · exact absurd h (by simp)
    · split at h
      · exact absurd h (by simp)
      · rename_i picked hpicked
        have hstop : stop = mkPlannedStop picked distanceFromStartKm energyRequiredKwh :=
          (Option.some.inj h).symm
        have hpmem : picked ∈ (rankStops (chosenPool
            (availableCandidates hav stationsNear point route selectedIds))).insertionSort
            rankedLE := by
          cases hl : (rankStops (chosenPool
              (availableCandidates hav stationsNear point route selectedIds))).insertionSort
              rankedLE with
          | nil => rw [hl] at hpicked; exact absurd hpicked (by simp)
          | cons x xs =>
            rw [hl] at hpicked
            have hx : x = picked := by simpa using hpicked
            rw [hx]
            exact List.mem_cons_self _ _
        have hpmem2 : picked ∈ rankStops (chosenPool
            (availableCandidates hav stationsNear point route selectedIds)) :=
          (List.mem_insertionSort rankedLE).mp hpmem
        unfold rankStops at hpmem2
        obtain ⟨c, hc, hceq⟩ := List.mem_map.mp hpmem2
        have hcav : c ∈ availableCandidates hav stationsNear point route selectedIds :=
          mem_chosenPool _ c hc
        unfold availableCandidates at hcav
        obtain ⟨station, hst, hsteq⟩ := List.mem_map.mp hcav
        have hfil := (List.mem_filter.mp hst).2
        have hid : stop.id = station.id := by
          rw [hstop, ← hceq, ← hsteq]
          rfl
        rw [hid]
        simpa using hfil

/-- The loop invariant for claim C4: starting from a stop list with
pairwise-distinct ids all recorded in `selectedIds`, any successful loop
outcome has pairwise-distinct stop ids. -/
theorem planLoop_nodup (env : TripEnv) (p : PlanEvTripParams) :
    ∀ (fuel i : ℕ) (selectedIds : List String)
      (stops : List PlannedChargingStop) (rescue : CommunityRescueInfo),
      (stops.map (fun s => s.id)).Nodup →
      (∀ s ∈ stops, s.id ∈ selectedIds) →
      ∀ result, planLoop env p fuel i selectedIds stops rescue = .ok result →
      (result.1.map (fun s => s.id)).Nodup := by
  intro fuel
  induction fuel with
  | zero =>
    intro i selectedIds stops rescue hnd hsub result h
    have : result = (stops, rescue) := by
      simpa [planLoop] using h.symm
    rw [this]
    exact hnd
  | succ fuel ih =>
    intro i selectedIds stops rescue hnd hsub result h
    rw [planLoop] at h
    split at h
    · rename_i stop hstop
      have hnotin := chooseBestStop_some_id env.hav env.stationsNear _ _ _ _ _ _ hstop
      refine ih (i + 1) (stop.id :: selectedIds) (stops ++ [stop]) rescue ?_ ?_ result h
      · rw [List.map_append]
        rw [List.nodup_append]
        refine ⟨hnd, List.nodup_singleton _, ?_⟩
        intro a ha
        simp only [List.map_cons, List.map_nil, List.mem_singleton]
        intro hcon
        obtain ⟨s, hs, hsid⟩ := List.mem_map.mp ha
        have : s.id ∈ selectedIds := hsub s hs
        rw [hsid, hcon] at this
        exact hnotin this
      · intro s hs
        rcases List.mem_append.mp hs with h1 | h1
        · exact List.mem_cons_of_mem _ (hsub s h1)
        · have : s = stop := by simpa using h1
          rw [this]
          exact List.mem_cons_self _ _
    · split at h
      · split at h
        · have hres := Except.ok.inj h
          rw [← hres]
          exact hnd
        · exact absurd h (by simp)
      · exact absurd h (by simp)

/-- C4: every successful `planEvTrip` call returns charging stops with
pairwise-distinct station ids — stop selection excludes already-selected ids
on each leg, so no station is reused within one trip plan. -/
theorem planEvTrip_claimC4 (env : TripEnv) (p : PlanEvTripParams)
    (r : RoutePlanResult) (h : planEvTrip env p = .ok r) :
    (r.chargingStops.map (fun s => s.id)).Nodup := by
  unfold planEvTrip at h
  split at h
  · have : r = noChargeResult env p := (Except.ok.inj h).symm
    rw [this]
    exact List.nodup_nil
  · split at h
    · exact absurd h (by simp)
    · split at h
      · exact absurd h (by simp)
      · rename_i stops rescue hloop
        have hr : r = planSuccessResult env p stops rescue := (Except.ok.inj h).symm
        have hnd := planLoop_nodup env p (stopsNeeded env p) 1 [] []
          (initialRescueDetails p) (by simp) (by simp) (stops, rescue) hloop
        rw [hr]
        exact hnd

/-- The environment of the C4 witness: a 3 km route for a usable range of
2 km, with one fast charger available near every point. -/
def tripEnvC4 : TripEnv :=
  { hav := fun _ _ => 1
    startCoord := ⟨0, 0⟩
    destCoord := ⟨3, 0⟩
    routeDistanceKm := 3
    routeGeometry := [⟨0, 0⟩, ⟨3, 0⟩]
    stationsNear := fun _ =>
      [⟨"s1", "Fast One", "addr", 1, 1, 60, false, some .grid, none⟩] }

/-- The parameters of the C4 witness (usable range 2 km, one stop needed). -/
def tripParamsC4 : PlanEvTripParams :=
  { startLocation := "A".toList
    destination := "B".toList
    evMaxRangeKm := 10
    currentBatteryPercent := 20 }

deriving instance DecidableEq for Except

/-- The computed plan of the C4 witness. -/
def planResultC4 : RoutePlanResult :=
  (planEvTrip tripEnvC4 tripParamsC4).toOption.getD (noChargeResult tripEnvC4 tripParamsC4)

/-- C4 — witness: a one-stop plan is produced and its stop ids are
pairwise distinct. -/
theorem planEvTrip_claimC4_witness :
    planEvTrip tripEnvC4 tripParamsC4 = .ok planResultC4 ∧
    (planResultC4.chargingStops.map (fun s => s.id)).Nodup ∧
    planResultC4.chargingStops.length = 1 := by
  have h1 : planEvTrip tripEnvC4 tripParamsC4 = .ok planResultC4 := by
    with_unfolding_all decide
  exact ⟨h1, planEvTrip_claimC4 tripEnvC4 tripParamsC4 planResultC4 h1,
    by with_unfolding_all decide⟩

end GreenMiles
